import Mathlib

/-!
Shallow embedding of the tele-store checkout core
(`tele_store/models/models.py`, `tele_store/crud/cart.py`,
`tele_store/crud/order.py`, `tele_store/handlers/callback/user/shared.py`,
`tele_store/handlers/callback/user/checkout.py`,
`tele_store/handlers/callback/user/cart.py`,
`tele_store/handlers/callback/user_callbacks.py`,
`tele_store/handlers/message/user_message.py`,
`tele_store/states/states.py`).

Money amounts (`Numeric(10, 2)` / `Decimal`) are represented exactly as
integers in minor units (kopecks); `quantity` columns are `Int` so that a
request to store a non-positive value can be expressed.  Every CRUD helper
in the source commits its own SQLAlchemy session, so each helper is one
atomic database transition here.
-/

namespace TeleStore

/-- `OrderStatus` enum from `db/enums.py`. -/
inductive OrderStatus
  | new
  | processing
  | shipped
  | delivered
  | canceled
  deriving DecidableEq

/-- Row of the `products` table (`models.py`, class `Product`). -/
structure Product where
  id : Nat
  category_id : Nat
  name : String
  description : Option String
  price : Int
  photo_file_id : Option String
  is_active : Bool
  deriving DecidableEq

/-- Row of the `carts` table (`models.py`, class `Cart`). -/
structure CartRow where
  id : Nat
  tg_id : Nat
  deriving DecidableEq

/-- Row of the `cart_items` table (`models.py`, class `CartItem`). -/
structure CartItemRow where
  id : Nat
  cart_id : Nat
  product_id : Nat
  quantity : Int
  deriving DecidableEq

/-- Row of the `orders` table (`models.py`, class `Order`): the table has
columns `id`, `order_number`, `tg_id`, `total_price`, `delivery_method`,
`status`, `created_at` and no delivery-contact columns. -/
structure OrderRow where
  id : Nat
  order_number : String
  tg_id : Option Nat
  total_price : Int
  delivery_method : Option String
  status : OrderStatus
  deriving DecidableEq

/-- Row of the `order_items` table (`models.py`, class `OrderItem`). -/
structure OrderItemRow where
  id : Nat
  order_id : Nat
  product_id : Nat
  quantity : Int
  price : Int
  deriving DecidableEq

/-- Database state: the five tables the checkout core touches, plus the
autoincrement counters of the tables it inserts into. -/
structure DB where
  products : List Product
  carts : List CartRow
  cart_items : List CartItemRow
  orders : List OrderRow
  order_items : List OrderItemRow
  next_cart_id : Nat
  next_cart_item_id : Nat
  next_order_id : Nat
  next_order_item_id : Nat
  deriving DecidableEq

/-- A `CartItem` ORM object as loaded by
`selectinload(Cart.items).selectinload(CartItem.product)`: the row plus a
snapshot of its related product (or `none` when the product row is gone). -/
structure LoadedItem where
  id : Nat
  cart_id : Nat
  product_id : Nat
  quantity : Int
  product : Option Product
  deriving DecidableEq

/-- A `Cart` ORM object with its items eagerly loaded. -/
structure LoadedCart where
  id : Nat
  tg_id : Nat
  items : List LoadedItem
  deriving DecidableEq

/-- Lookup of a product row by primary key (`ProductManager.get_product`). -/
def getProduct (db : DB) (product_id : Nat) : Option Product :=
  db.products.find? (fun p => p.id == product_id)

/-- Load one cart-item row together with its product relationship. -/
def loadItem (db : DB) (r : CartItemRow) : LoadedItem :=
  ⟨r.id, r.cart_id, r.product_id, r.quantity, getProduct db r.product_id⟩

/-- Load a cart row with all of its items (the `selectinload` options of
`CartManager.get_cart` / `CartManager.get_cart_by_user`). -/
def loadCart (db : DB) (c : CartRow) : LoadedCart :=
  ⟨c.id, c.tg_id,
    (db.cart_items.filter (fun r => r.cart_id == c.id)).map (loadItem db)⟩

/-- `CartManager.get_cart`: fetch a cart by id with items and products. -/
def get_cart (db : DB) (cart_id : Nat) : Option LoadedCart :=
  (db.carts.find? (fun c => c.id == cart_id)).map (loadCart db)

/-- `CartManager.get_cart_by_user`: fetch the user's cart by `tg_id`. -/
def get_cart_by_user (db : DB) (tg_id : Nat) : Option LoadedCart :=
  (db.carts.find? (fun c => c.tg_id == tg_id)).map (loadCart db)

/-- `CartManager.create_cart`: insert a cart row and commit. -/
def create_cart (db : DB) (tg_id : Nat) : DB × CartRow :=
  let c : CartRow := ⟨db.next_cart_id, tg_id⟩
  ({ db with carts := db.carts ++ [c], next_cart_id := db.next_cart_id + 1 }, c)

/-- `CartManager.delete_cart_item`: delete one cart-item row by id if it
exists; returns whether a row was deleted.  One committed transaction. -/
def delete_cart_item (db : DB) (cart_item_id : Nat) : DB × Bool :=
  if (db.cart_items.find? (fun r => r.id == cart_item_id)).isSome then
    ({ db with cart_items := db.cart_items.filter (fun r => r.id != cart_item_id) },
      true)
  else
    (db, false)

/-- `CartManager.clear_cart`: bulk-delete every cart-item row of the cart
and commit. -/
def clear_cart (db : DB) (cart_id : Nat) : DB :=
  { db with cart_items := db.cart_items.filter (fun r => r.cart_id != cart_id) }

/-- Result of `CartManager.add_cart_item` at commit time. -/
inductive AddItemResult
  | ok (item : CartItemRow)
  | integrityError
  deriving DecidableEq

/-- `CartManager.add_cart_item`: insert a cart-item row and commit.  The
commit is rejected by the schema (migration `202501070001`) when the
`quantity > 0` check constraint or the unique `(cart_id, product_id)`
constraint is violated. -/
def add_cart_item (db : DB) (cart_id product_id : Nat) (quantity : Int) :
    DB × AddItemResult :=
  if quantity ≤ 0 then
    (db, .integrityError)
  else if db.cart_items.any
      (fun r => r.cart_id == cart_id && r.product_id == product_id) then
    (db, .integrityError)
  else
    let r : CartItemRow := ⟨db.next_cart_item_id, cart_id, product_id, quantity⟩
    ({ db with
        cart_items := db.cart_items ++ [r],
        next_cart_item_id := db.next_cart_item_id + 1 },
      .ok r)

/-- Result of `CartManager.update_cart_item_count`. -/
inductive UpdateCountResult
  | notFound
  | updated (item : CartItemRow)
  | integrityError
  deriving DecidableEq

/-- `CartManager.update_cart_item_count`: fetch the row by id (`None` result
when absent), assign the requested quantity unconditionally and commit.
The code has no `quantity ≤ 0` guard; such a commit is rejected by the
`quantity > 0` check constraint of `cart_items`, leaving the row as it
was. -/
def update_cart_item_count (db : DB) (cart_item_id : Nat) (quantity : Int) :
    DB × UpdateCountResult :=
  match db.cart_items.find? (fun r => r.id == cart_item_id) with
  | none => (db, .notFound)
  | some r =>
      if quantity ≤ 0 then
        (db, .integrityError)
      else
        let r2 : CartItemRow := { r with quantity := quantity }
        ({ db with
            cart_items := db.cart_items.map
              (fun x => if x.id == cart_item_id then r2 else x) },
          .updated r2)

/-- `CreateOrder` pydantic model (`schemas/order.py`) after successful
validation: `name`, `phone`, `address` are required string fields with no
default. -/
structure CreateOrder where
  order_number : String
  tg_id : Option Nat
  name : String
  phone : String
  address : String
  total_price : Int
  delivery_method : Option String
  status : OrderStatus
  deriving DecidableEq

/-- Pydantic validation of a `CreateOrder(...)` construction.  The callers
pass `name`, `phone` and `address` as values fetched from session data
(`data.get(...)`, possibly `None`); a required string field that is missing
or `None` raises `ValidationError` before anything is persisted. -/
def validateCreateOrder (order_number : String) (tg_id : Option Nat)
    (name phone address : Option String) (total_price : Int)
    (delivery_method : Option String) : Option CreateOrder :=
  match name, phone, address with
  | some n, some p, some a =>
      some ⟨order_number, tg_id, n, p, a, total_price, delivery_method, .new⟩
  | _, _, _ => none

/-- `OrderManager.create_order`: builds the `Order` ORM object from the
payload using only `order_number`, `tg_id`, `total_price`,
`delivery_method` and `status` — the payload's `name`, `phone` and
`address` are not copied (the `orders` table has no such columns) — then
commits.  One committed transaction. -/
def create_order (db : DB) (payload : CreateOrder) : DB × OrderRow :=
  let o : OrderRow :=
    ⟨db.next_order_id, payload.order_number, payload.tg_id,
      payload.total_price, payload.delivery_method, payload.status⟩
  ({ db with orders := db.orders ++ [o], next_order_id := db.next_order_id + 1 },
    o)

/-- `OrderManager.create_order_item`: insert one order-item row and commit. -/
def create_order_item (db : DB) (order_id product_id : Nat)
    (quantity price : Int) : DB × OrderItemRow :=
  let r : OrderItemRow :=
    ⟨db.next_order_item_id, order_id, product_id, quantity, price⟩
  ({ db with
      order_items := db.order_items ++ [r],
      next_order_item_id := db.next_order_item_id + 1 },
    r)

/-- `format_money` (`shared.py`): render an exact two-decimal amount with
the ruble sign; on minor-unit integers `quantize(Decimal("0.01"))` is the
identity. -/
def format_money (amount : Int) : String :=
  let units := amount / 100
  let cents := (amount % 100).natAbs
  toString units ++ "." ++ toString (cents / 10) ++ toString (cents % 10) ++ " ₽"

/-- One iteration of the `collect_cart_lines` loop body: an item whose
product relationship is `None` is skipped; otherwise it contributes a
rendered line and its `product.price * item.quantity` line total. -/
def collectLine (index : Nat) (item : LoadedItem) : Option (String × Int) :=
  match item.product with
  | none => none
  | some product =>
      let line_total := product.price * item.quantity
      some (toString index ++ ". " ++ product.name ++ " — " ++
              toString item.quantity ++ " шт. × " ++ format_money product.price ++
              " = " ++ format_money line_total,
            line_total)

/-- `collect_cart_lines` (`shared.py`): walk `cart.items` with a 1-based
`enumerate` index, collecting display lines and summing line totals. -/
def collect_cart_lines (cart : LoadedCart) : List String × Int :=
  let r := cart.items.foldl
    (fun (acc : Nat × List String × Int) item =>
      match collectLine acc.1 item with
      | none => (acc.1 + 1, acc.2.1, acc.2.2)
      | some (l, lt) => (acc.1 + 1, acc.2.1 ++ [l], acc.2.2 + lt))
    (1, [], 0)
  (r.2.1, r.2.2)

/-- The condition under which the `sanitize_cart` loop deletes an item:
its product relationship is `None` or the product's `is_active` flag is
false. -/
def itemInvalid (item : LoadedItem) : Bool :=
  match item.product with
  | none => true
  | some p => !p.is_active

/-- The deletion loop of `sanitize_cart` (`shared.py`): one committed
`CartManager.delete_cart_item` call for every loaded item whose product is
missing or inactive. -/
def sanitizeDeletes (db : DB) (items : List LoadedItem) : DB :=
  items.foldl
    (fun d item => if itemInvalid item then (delete_cart_item d item.id).1 else d)
    db

/-- `sanitize_cart` (`shared.py`): run the deletion loop, then — only if
something was removed — re-fetch the user's cart; otherwise hand back the
cart object that was passed in.  The internal `removed` flag
(`cart.items.any itemInvalid`) is not part of the return value. -/
def sanitize_cart (db : DB) (cart : LoadedCart) : DB × Option LoadedCart :=
  let db1 := sanitizeDeletes db cart.items
  if cart.items.any itemInvalid then
    (db1, get_cart_by_user db1 cart.tg_id)
  else
    (db1, some cart)

/-- The database effect of `refresh_cart_view` (`shared.py`): re-fetch the
user's cart and sanitize it; the rest of the function only renders
messages. -/
def refresh_cart_db (db : DB) (tg_id : Nat) : DB :=
  match get_cart_by_user db tg_id with
  | none => db
  | some cart => (sanitize_cart db cart).1

/-- Transient FSM session data (`state.get_data()` dictionary) as used by
the checkout handlers: each key may be absent. -/
structure SessionData where
  cart_id : Option Nat
  name : Option String
  phone_number : Option String
  address : Option String
  delivery_method : Option String
  deriving DecidableEq

/-- Outcome of `add_product_to_cart` visible to the user. -/
inductive AddToCartOutcome
  | unavailable
  | added
  deriving DecidableEq

/-- `add_product_to_cart` handler (`handlers/callback/user/cart.py`):
reject a missing or inactive product; fetch or lazily create the user's
cart; then either insert a new cart item with quantity 1 or increment the
existing row's quantity by 1 via `update_cart_item_count`. -/
def add_product_to_cart (db : DB) (from_user product_id : Nat) :
    DB × AddToCartOutcome :=
  match getProduct db product_id with
  | none => (db, .unavailable)
  | some product =>
      if !product.is_active then
        (db, .unavailable)
      else
        let step :=
          match get_cart_by_user db from_user with
          | some c => (db, c.id)
          | none =>
              let r := create_cart db from_user
              (r.1, r.2.id)
        let db1 := step.1
        let cartId := step.2
        match db1.cart_items.find?
            (fun r => r.cart_id == cartId && r.product_id == product_id) with
        | none => ((add_cart_item db1 cartId product_id 1).1, .added)
        | some existing =>
            ((update_cart_item_count db1 existing.id (existing.quantity + 1)).1,
              .added)

/-- Perform the add-to-cart press `n` times in sequence (each press adds
quantity 1; a larger quantity is only expressible as repeated presses). -/
def addNTimes (db : DB) (from_user product_id : Nat) : Nat → DB
  | 0 => db
  | Nat.succ k => addNTimes (add_product_to_cart db from_user product_id).1
      from_user product_id k

/-- Outcome of the cart-item decrease handler. -/
inductive DecreaseOutcome
  | notFound
  | deleted
  | updated (item : CartItemRow)
  deriving DecidableEq

/-- `decrease_cart_item` handler (`handlers/callback/user/cart.py`): fetch
the item (the `cart` relationship exists whenever the foreign key is
intact), check ownership, then delete the row when the decremented
quantity would be `≤ 0` and update it otherwise; both branches re-render
the cart via `refresh_cart_view`, whose only database effect is
sanitation. -/
def decrease_cart_item (db : DB) (from_user item_id : Nat) :
    DB × DecreaseOutcome :=
  match db.cart_items.find? (fun r => r.id == item_id) with
  | none => (db, .notFound)
  | some item =>
      match db.carts.find? (fun c => c.id == item.cart_id) with
      | none => (db, .notFound)
      | some cart =>
          if cart.tg_id != from_user then
            (db, .notFound)
          else
            let new_quantity := item.quantity - 1
            if new_quantity ≤ 0 then
              let db1 := (delete_cart_item db item.id).1
              (refresh_cart_db db1 from_user, .deleted)
            else
              let r := update_cart_item_count db item.id new_quantity
              let out :=
                match r.2 with
                | .updated it => DecreaseOutcome.updated it
                | _ => DecreaseOutcome.notFound
              (refresh_cart_db r.1 from_user, out)

/-- Outcome of the `confirm_order` handler visible to the session. -/
inductive ConfirmOutcome
  | noCart
  | emptyCart
  | noLines
  | validationError
  | success (order : OrderRow)
  deriving DecidableEq

/-- The read half of `confirm_order` (`checkout.py`): read the session's
`cart_id`, fetch the cart, sanitize it, and compute the display lines and
total.  Returns the sanitized cart snapshot together with the lines and
total when the handler would proceed to persistence, and the early-exit
outcome otherwise.  The only database writes in this half are the
sanitation deletes. -/
def confirmReadPhase (db : DB) (data : SessionData) :
    DB × (ConfirmOutcome ⊕ (LoadedCart × List String × Int)) :=
  match data.cart_id with
  | none => (db, .inl .noCart)
  | some cart_id =>
      let step :=
        match get_cart db cart_id with
        | none => (db, (none : Option LoadedCart))
        | some c => sanitize_cart db c
      let db1 := step.1
      match step.2 with
      | none => (db1, .inl .emptyCart)
      | some cart =>
          if cart.items.isEmpty then
            (db1, .inl .emptyCart)
          else
            let r := collect_cart_lines cart
            if r.1.isEmpty then
              (db1, .inl .noLines)
            else
              (db1, .inr (cart, r.1, r.2))

/-- The order-item insertion loop of `confirm_order`: one committed
`OrderManager.create_order_item` call per cart item whose `product`
relationship is loaded, copying product id, quantity and the current
product price. -/
def itemWrites (order_id : Nat) (items : List LoadedItem) : List (DB → DB) :=
  items.foldr
    (fun item acc =>
      match item.product with
      | none => acc
      | some product =>
          (fun d => (create_order_item d order_id product.id
              item.quantity product.price).1) :: acc)
    []

/-- The committed writes of the persistence half of `confirm_order`, in
program order: insert the `Order` row, insert one `OrderItem` row per
surviving cart item, then clear the cart.  Each list entry is one
`session.commit()` in the source, so after any prefix of this list the
database state is durably persisted. -/
def confirmWrites (db : DB) (cart : LoadedCart) (payload : CreateOrder) :
    List (DB → DB) :=
  (fun d => (create_order d payload).1) ::
    (itemWrites db.next_order_id cart.items ++ [fun d => clear_cart d cart.id])

/-- Apply a sequence of committed writes in order. -/
def applyWrites (db : DB) (ws : List (DB → DB)) : DB :=
  ws.foldl (fun d w => w d) db

/-- State of the database when execution stops after the first `k` commits
of a write sequence (a failure at commit `k + 1` cannot undo them: each
prior step already committed). -/
def applyFirstK (db : DB) (ws : List (DB → DB)) (k : Nat) : DB :=
  applyWrites db (ws.take k)

/-- The persistence half of `confirm_order` run to completion from a cart
snapshot: all writes of `confirmWrites` applied in order; also returns the
inserted `Order` row. -/
def confirmPersistPhase (db : DB) (cart : LoadedCart) (payload : CreateOrder) :
    DB × OrderRow :=
  (applyWrites db (confirmWrites db cart payload), (create_order db payload).2)

/-- `confirm_order` handler (`handlers/callback/user/checkout.py`): read
and sanitize the cart, validate the `CreateOrder(...)` construction
(keyword `address=data.get("address")`), then run the per-call-committed
persistence sequence. -/
def confirm_order (db : DB) (data : SessionData) (from_user : Nat)
    (order_number : String) : DB × ConfirmOutcome :=
  let r := confirmReadPhase db data
  match r.2 with
  | .inl out => (r.1, out)
  | .inr (cart, _, total_price) =>
      match validateCreateOrder order_number (some from_user) data.name
          data.phone_number data.address total_price data.delivery_method with
      | none => (r.1, .validationError)
      | some payload =>
          let p := confirmPersistPhase r.1 cart payload
          (p.1, .success p.2)

/-- `confirm_order` handler of `handlers/callback/user_callbacks.py` — the
router actually installed by `setup_routers`.  Identical to the package
version except that the `CreateOrder(...)` construction spells the keyword
`addres=...`: pydantic ignores the unknown keyword and the required
`address` field is never supplied, so the `address` argument of the
validation is always absent. -/
def confirm_order_legacy (db : DB) (data : SessionData) (from_user : Nat)
    (order_number : String) : DB × ConfirmOutcome :=
  let r := confirmReadPhase db data
  match r.2 with
  | .inl out => (r.1, out)
  | .inr (cart, _, total_price) =>
      match validateCreateOrder order_number (some from_user) data.name
          data.phone_number none total_price data.delivery_method with
      | none => (r.1, .validationError)
      | some payload =>
          let p := confirmPersistPhase r.1 cart payload
          (p.1, .success p.2)

/-- An aiogram FSM state identity: the `StatesGroup` class name and the
`State` attribute name. -/
structure StateId where
  group : String
  state : String
  deriving DecidableEq

/-- The state groups defined by `tele_store/states/states.py`: it defines
exactly `NewDelivery`, `AddNewItem` and `AddNewCategory`. -/
def states_module_groups : List (String × List String) :=
  [("NewDelivery", ["name", "phone_number", "address", "delivery_method", "confirm"]),
   ("AddNewItem", ["name", "description", "price", "category_id", "photo_file_id", "confirm"]),
   ("AddNewCategory", ["name", "description", "confirm"])]

/-- The states of the `NewDelivery` group. -/
def newDeliveryStates : List StateId :=
  [⟨"NewDelivery", "name"⟩, ⟨"NewDelivery", "phone_number"⟩,
   ⟨"NewDelivery", "address"⟩, ⟨"NewDelivery", "delivery_method"⟩,
   ⟨"NewDelivery", "confirm"⟩]

/-- The FSM state filters of the free-text checkout message handlers
`process_order_name`, `process_order_phone`, `process_order_address`
(`handlers/message/user_message.py`): all three are registered under
states of a group named `RegNewUser`. -/
def checkoutMessageGuards : List StateId :=
  [⟨"RegNewUser", "name"⟩, ⟨"RegNewUser", "phone_number"⟩,
   ⟨"RegNewUser", "address"⟩]

/-- A state-changing handler among the routers installed by
`setup_routers`: its FSM state filter (`none` = fires in any state) and
the state it can set (`none` = `state.clear()`). -/
structure Transition where
  guard : Option StateId
  target : Option StateId
  deriving DecidableEq

/-- Every `set_state` / `state.clear()` site reachable through the routers
that `setup_routers` installs (`start_command_router`,
`admin_command_router`, `admin_callbacks`, `user_callbacks`, `callbacks`,
`admin_message`, `user_message`), with the handler's FSM state filter. -/
def installedTransitions : List Transition :=
  [ -- start_command (`/start`) and admin_command (`/admin`): clear
    ⟨none, none⟩,
    -- callbacks.cancel and user_callbacks.cancel_order: clear
    -- (covered by the entry above)
    -- admin_callbacks.add_item: any → AddNewItem.name
    ⟨none, some ⟨"AddNewItem", "name"⟩⟩,
    -- admin_callbacks confirm/cancel of the new item: clear
    ⟨some ⟨"AddNewItem", "confirm"⟩, none⟩,
    -- admin_callbacks.add_category: any → AddNewCategory.name
    ⟨none, some ⟨"AddNewCategory", "name"⟩⟩,
    -- admin_callbacks confirm/cancel of the new category: clear
    ⟨some ⟨"AddNewCategory", "confirm"⟩, none⟩,
    -- admin_message: AddNewItem chain
    ⟨some ⟨"AddNewItem", "name"⟩, some ⟨"AddNewItem", "description"⟩⟩,
    ⟨some ⟨"AddNewItem", "description"⟩, some ⟨"AddNewItem", "price"⟩⟩,
    ⟨some ⟨"AddNewItem", "price"⟩, some ⟨"AddNewItem", "category_id"⟩⟩,
    ⟨some ⟨"AddNewItem", "category_id"⟩, some ⟨"AddNewItem", "photo_file_id"⟩⟩,
    ⟨some ⟨"AddNewItem", "photo_file_id"⟩, some ⟨"AddNewItem", "confirm"⟩⟩,
    -- admin_message: AddNewCategory chain
    ⟨some ⟨"AddNewCategory", "name"⟩, some ⟨"AddNewCategory", "description"⟩⟩,
    ⟨some ⟨"AddNewCategory", "description"⟩, some ⟨"AddNewCategory", "confirm"⟩⟩,
    -- user_callbacks.start_checkout: any → NewDelivery.name
    ⟨none, some ⟨"NewDelivery", "name"⟩⟩,
    -- user_callbacks.choose_delivery_method: NewDelivery.delivery_method
    -- → NewDelivery.confirm (or clear on a stale cart)
    ⟨some ⟨"NewDelivery", "delivery_method"⟩, some ⟨"NewDelivery", "confirm"⟩⟩,
    ⟨some ⟨"NewDelivery", "delivery_method"⟩, none⟩,
    -- user_callbacks.confirm_order: NewDelivery.confirm → clear
    ⟨some ⟨"NewDelivery", "confirm"⟩, none⟩,
    -- user_message: RegNewUser chain (the group the states module never
    -- defines)
    ⟨some ⟨"RegNewUser", "name"⟩, some ⟨"RegNewUser", "phone_number"⟩⟩,
    ⟨some ⟨"RegNewUser", "phone_number"⟩, some ⟨"RegNewUser", "address"⟩⟩,
    ⟨some ⟨"RegNewUser", "address"⟩, some ⟨"RegNewUser", "delivery_method"⟩⟩,
    ⟨some ⟨"RegNewUser", "delivery_method"⟩, some ⟨"RegNewUser", "confirm"⟩⟩ ]

/-- A handler guard matches the current FSM state: either the handler has
no state filter, or the filter equals the current state. -/
def guardMatches (g : Option StateId) (s : Option StateId) : Bool :=
  match g with
  | none => true
  | some gs => s == some gs

/-- One FSM state change by some installed handler. -/
def FsmStep (s t : Option StateId) : Prop :=
  ∃ tr ∈ installedTransitions, guardMatches tr.guard s ∧ t = tr.target

/-- All FSM states reachable by installed handlers from a given state. -/
def FsmReach (s t : Option StateId) : Prop :=
  Relation.ReflTransGen FsmStep s t

/-- The states reachable once a session has entered `NewDelivery.name`
(what `start_checkout` sets): the closure of the installed transitions. -/
def checkoutClosedSet : List (Option StateId) :=
  [some ⟨"NewDelivery", "name"⟩, none,
   some ⟨"AddNewItem", "name"⟩, some ⟨"AddNewItem", "description"⟩,
   some ⟨"AddNewItem", "price"⟩, some ⟨"AddNewItem", "category_id"⟩,
   some ⟨"AddNewItem", "photo_file_id"⟩, some ⟨"AddNewItem", "confirm"⟩,
   some ⟨"AddNewCategory", "name"⟩, some ⟨"AddNewCategory", "description"⟩,
   some ⟨"AddNewCategory", "confirm"⟩]

/-- Python `str.strip()`: remove leading and trailing whitespace. -/
def pyStrip (s : String) : String :=
  String.mk (((s.data.dropWhile Char.isWhitespace).reverse.dropWhile
    Char.isWhitespace).reverse)

/-- `re.sub(r"\D", "", s)`: keep only the digit characters. -/
def digits_only (s : String) : String :=
  String.mk (s.data.filter Char.isDigit)

/-- Result of one free-text step of the checkout dialogue: the FSM state
and session data afterwards, and whether the input was accepted. -/
structure PhoneStepResult where
  state : Option StateId
  data : SessionData
  accepted : Bool
  deriving DecidableEq

/-- `process_order_phone` (`handlers/message/user_message.py`): strip the
text, extract its digits, re-prompt without touching state or data when
the digit count is below 10 or above 15, and otherwise store the stripped
input as `phone_number` and advance to the address state. -/
def process_order_phone (text : String) (st : Option StateId)
    (data : SessionData) : PhoneStepResult :=
  let raw_phone := pyStrip text
  let d := digits_only raw_phone
  if d.length < 10 || 15 < d.length then
    ⟨st, data, false⟩
  else
    ⟨some ⟨"RegNewUser", "address"⟩,
      { data with phone_number := some raw_phone }, true⟩

/-- Invalidity of a cart-item row judged against the current product
table: the row a sanitation pass deletes. -/
def rowInvalid (db : DB) (r : CartItemRow) : Bool :=
  itemInvalid (loadItem db r)

/-- The line total a loaded item contributes in `collect_cart_lines`
(`product.price * item.quantity`; an item without a product contributes
nothing). -/
def itemLineTotal (item : LoadedItem) : Int :=
  match item.product with
  | none => 0
  | some p => p.price * item.quantity

section Lemmas

lemma delete_cart_item_fst (db : DB) (i : Nat) :
    (delete_cart_item db i).1 =
      { db with cart_items := db.cart_items.filter (fun r => r.id != i) } := by
  unfold delete_cart_item
  by_cases h : (db.cart_items.find? (fun r => r.id == i)).isSome
  · simp [h]
  · simp only [h, Bool.false_eq_true, if_false]
    have hnone : db.cart_items.find? (fun r => r.id == i) = none := by
      cases hf : db.cart_items.find? (fun r => r.id == i) with
      | none => rfl
      | some v => rw [hf] at h; simp at h
    have heq : db.cart_items.filter (fun r => r.id != i) = db.cart_items := by
      apply List.filter_eq_self.mpr
      intro r hr
      have := List.find?_eq_none.mp hnone r hr
      simpa [bne] using this
    rw [heq]

lemma sanitizeDeletes_cart_items (items : List LoadedItem) (db : DB) :
    (sanitizeDeletes db items).cart_items =
      db.cart_items.filter
        (fun r => !(items.any (fun i => itemInvalid i && i.id == r.id))) := by
  induction items generalizing db with
  | nil => simp [sanitizeDeletes]
  | cons hd tl ih =>
      unfold sanitizeDeletes at *
      simp only [List.foldl_cons]
      by_cases h : itemInvalid hd
      · rw [if_pos h, delete_cart_item_fst, ih]
        simp only [List.filter_filter]
        apply List.filter_congr
        intro r _
        by_cases hid : hd.id = r.id
        · have hbe : (hd.id == r.id) = true := by simp [hid]
          simp [List.any_cons, h, hbe, bne, hid]
        · have hbe : (hd.id == r.id) = false := by simp [hid]
          simp only [List.any_cons, h, hbe, Bool.true_and, Bool.false_or,
            Bool.not_or, Bool.and_comm]
          simp [bne]
          intro _
          exact fun hc => hid (Eq.symm hc)
      · rw [if_neg h, ih]
        apply List.filter_congr
        intro r _
        have hfalse : itemInvalid hd = false := by simpa using h
        simp [List.any_cons, hfalse]

lemma sanitizeDeletes_fields (items : List LoadedItem) (db : DB) :
    (sanitizeDeletes db items).products = db.products ∧
    (sanitizeDeletes db items).carts = db.carts ∧
    (sanitizeDeletes db items).orders = db.orders ∧
    (sanitizeDeletes db items).order_items = db.order_items ∧
    (sanitizeDeletes db items).next_cart_id = db.next_cart_id ∧
    (sanitizeDeletes db items).next_cart_item_id = db.next_cart_item_id ∧
    (sanitizeDeletes db items).next_order_id = db.next_order_id ∧
    (sanitizeDeletes db items).next_order_item_id = db.next_order_item_id := by
  induction items generalizing db with
  | nil => simp [sanitizeDeletes]
  | cons hd tl ih =>
      unfold sanitizeDeletes at *
      simp only [List.foldl_cons]
      by_cases h : itemInvalid hd
      · rw [if_pos h]
        have h2 := ih ((delete_cart_item db hd.id).1)
        rw [delete_cart_item_fst] at h2 ⊢
        exact h2
      · rw [if_neg h]
        exact ih db

lemma sanitizeDeletes_noop (items : List LoadedItem) (db : DB)
    (h : items.all (fun i => !itemInvalid i)) :
    sanitizeDeletes db items = db := by
  induction items generalizing db with
  | nil => simp [sanitizeDeletes]
  | cons hd tl ih =>
      simp only [List.all_cons, Bool.and_eq_true, Bool.not_eq_true'] at h
      unfold sanitizeDeletes at *
      simp only [List.foldl_cons, h.1, Bool.false_eq_true, if_false]
      exact ih db (by simpa using h.2)

lemma sanitize_cart_noop (db : DB) (cart : LoadedCart)
    (h : cart.items.all (fun i => !itemInvalid i)) :
    sanitize_cart db cart = (db, some cart) := by
  have hany : cart.items.any itemInvalid = false := by
    rw [List.any_eq_false]
    intro i hi
    have := List.all_eq_true.mp h i hi
    simpa using this
  unfold sanitize_cart
  rw [sanitizeDeletes_noop _ _ h]
  simp [hany]

lemma collectLine_eq_none (idx : Nat) (item : LoadedItem)
    (h : item.product = none) : collectLine idx item = none := by
  unfold collectLine
  rw [h]

lemma collectLine_eq_some (idx : Nat) (item : LoadedItem) (p : Product)
    (h : item.product = some p) :
    ∃ l, collectLine idx item = some (l, itemLineTotal item) := by
  unfold collectLine itemLineTotal
  rw [h]
  exact ⟨_, rfl⟩

lemma collect_foldl_spec (items : List LoadedItem) :
    ∀ (idx : Nat) (lines : List String) (total : Int),
      (items.foldl
        (fun (acc : Nat × List String × Int) item =>
          match collectLine acc.1 item with
          | none => (acc.1 + 1, acc.2.1, acc.2.2)
          | some (l, lt) => (acc.1 + 1, acc.2.1 ++ [l], acc.2.2 + lt))
        (idx, lines, total)).2.2 = total + (items.map itemLineTotal).sum ∧
      (items.foldl
        (fun (acc : Nat × List String × Int) item =>
          match collectLine acc.1 item with
          | none => (acc.1 + 1, acc.2.1, acc.2.2)
          | some (l, lt) => (acc.1 + 1, acc.2.1 ++ [l], acc.2.2 + lt))
        (idx, lines, total)).2.1.length =
        lines.length + items.countP (fun i => i.product.isSome) := by
  induction items with
  | nil => intro idx lines total; simp
  | cons hd tl ih =>
      intro idx lines total
      simp only [List.foldl_cons, List.map_cons, List.sum_cons, List.countP_cons]
      cases hp : hd.product with
      | none =>
          rw [collectLine_eq_none idx hd hp]
          have h2 := ih (idx + 1) lines total
          constructor
          · rw [h2.1]
            have : itemLineTotal hd = 0 := by unfold itemLineTotal; rw [hp]
            rw [this]; ring
          · rw [h2.2]
            simp [hp]
      | some p =>
          obtain ⟨l, hl⟩ := collectLine_eq_some idx hd p hp
          rw [hl]
          have h2 := ih (idx + 1) (lines ++ [l]) (total + itemLineTotal hd)
          constructor
          · rw [h2.1]; ring
          · rw [h2.2]
            simp [hp]
            omega

lemma collect_cart_lines_total (cart : LoadedCart) :
    (collect_cart_lines cart).2 = (cart.items.map itemLineTotal).sum := by
  unfold collect_cart_lines
  have := (collect_foldl_spec cart.items 1 [] 0).1
  simpa using this

lemma collect_cart_lines_length (cart : LoadedCart) :
    (collect_cart_lines cart).1.length =
      cart.items.countP (fun i => i.product.isSome) := by
  unfold collect_cart_lines
  have := (collect_foldl_spec cart.items 1 [] 0).2
  simpa using this

lemma applyWrites_nil (db : DB) : applyWrites db [] = db := rfl

lemma applyWrites_cons (db : DB) (w : DB → DB) (ws : List (DB → DB)) :
    applyWrites db (w :: ws) = applyWrites (w db) ws := rfl

lemma applyWrites_append (db : DB) (ws1 ws2 : List (DB → DB)) :
    applyWrites db (ws1 ++ ws2) = applyWrites (applyWrites db ws1) ws2 := by
  unfold applyWrites
  exact List.foldl_append ..

lemma itemWrites_nil (oid : Nat) : itemWrites oid [] = [] := rfl

lemma itemWrites_cons (oid : Nat) (hd : LoadedItem) (tl : List LoadedItem) :
    itemWrites oid (hd :: tl) =
      match hd.product with
      | none => itemWrites oid tl
      | some product =>
          (fun d => (create_order_item d oid product.id
              hd.quantity product.price).1) :: itemWrites oid tl := by
  unfold itemWrites
  rw [List.foldr_cons]

lemma itemWrites_preserves (oid : Nat) (items : List LoadedItem) :
    ∀ w ∈ itemWrites oid items, ∀ d : DB,
      (w d).orders = d.orders ∧ (w d).cart_items = d.cart_items ∧
      (w d).carts = d.carts ∧ (w d).products = d.products ∧
      (w d).next_order_id = d.next_order_id := by
  induction items with
  | nil => intro w hw; simp [itemWrites] at hw
  | cons hd tl ih =>
      intro w hw d
      rw [itemWrites_cons] at hw
      cases hp : hd.product with
      | none => rw [hp] at hw; exact ih w hw d
      | some p =>
          rw [hp] at hw
          rcases List.mem_cons.mp hw with h | h
          · subst h
            simp [create_order_item]
          · exact ih w h d

lemma applyWrites_preserves (ws : List (DB → DB))
    (h : ∀ w ∈ ws, ∀ d : DB,
      (w d).orders = d.orders ∧ (w d).cart_items = d.cart_items ∧
      (w d).carts = d.carts ∧ (w d).products = d.products ∧
      (w d).next_order_id = d.next_order_id) :
    ∀ db : DB, (applyWrites db ws).orders = db.orders ∧
      (applyWrites db ws).cart_items = db.cart_items ∧
      (applyWrites db ws).carts = db.carts ∧
      (applyWrites db ws).products = db.products ∧
      (applyWrites db ws).next_order_id = db.next_order_id := by
  induction ws with
  | nil => intro db; simp [applyWrites_nil]
  | cons w ws ih =>
      intro db
      rw [applyWrites_cons]
      have hw := h w (List.mem_cons_self w ws) db
      have hrest := ih (fun v hv => h v (List.mem_cons_of_mem w hv)) (w db)
      exact ⟨hrest.1.trans hw.1, hrest.2.1.trans hw.2.1,
        hrest.2.2.1.trans hw.2.2.1, hrest.2.2.2.1.trans hw.2.2.2.1,
        hrest.2.2.2.2.trans hw.2.2.2.2⟩

lemma itemWrites_count (oid : Nat) (items : List LoadedItem) :
    ∀ d : DB,
      ((applyWrites d (itemWrites oid items)).order_items.filter
        (fun r => r.order_id == oid)).length =
      (d.order_items.filter (fun r => r.order_id == oid)).length +
        items.countP (fun i => i.product.isSome) := by
  induction items with
  | nil => intro d; simp [itemWrites, applyWrites_nil]
  | cons hd tl ih =>
      intro d
      rw [itemWrites_cons]
      cases hp : hd.product with
      | none =>
          rw [ih d]
          simp [List.countP_cons, hp]
      | some p =>
          rw [applyWrites_cons, ih]
          simp only [create_order_item, List.countP_cons, hp]
          simp [List.filter_append]
          omega

lemma clear_cart_fields (db : DB) (cid : Nat) :
    (clear_cart db cid).orders = db.orders ∧
    (clear_cart db cid).order_items = db.order_items ∧
    (clear_cart db cid).carts = db.carts ∧
    (clear_cart db cid).products = db.products := by
  simp [clear_cart]

lemma clear_cart_empties (db : DB) (cid : Nat) :
    (clear_cart db cid).cart_items.filter (fun r => r.cart_id == cid) = [] := by
  unfold clear_cart
  simp only [List.filter_filter]
  apply List.filter_eq_nil_iff.mpr
  intro r _
  by_cases h : r.cart_id = cid <;> simp [h, bne]

lemma valid_item_product_isSome (i : LoadedItem) (h : itemInvalid i = false) :
    i.product.isSome := by
  unfold itemInvalid at h
  cases hp : i.product with
  | none => rw [hp] at h; simp at h
  | some p => simp

lemma all_valid_countP (items : List LoadedItem)
    (h : items.all (fun i => !itemInvalid i) = true) :
    items.countP (fun i => i.product.isSome) = items.length := by
  apply List.countP_eq_length.mpr
  intro i hi
  have := List.all_eq_true.mp h i hi
  exact valid_item_product_isSome i (by simpa using this)

lemma confirmReadPhase_success (db : DB) (data : SessionData)
    (cid : Nat) (cart : LoadedCart)
    (hcid : data.cart_id = some cid)
    (hcart : get_cart db cid = some cart)
    (hvalid : cart.items.all (fun i => !itemInvalid i) = true)
    (hne : cart.items ≠ []) :
    confirmReadPhase db data =
      (db, .inr (cart, (collect_cart_lines cart).1, (collect_cart_lines cart).2)) := by
  unfold confirmReadPhase
  rw [hcid]
  simp only [hcart, sanitize_cart_noop db cart hvalid]
  have hie : cart.items.isEmpty = false := by
    rw [List.isEmpty_eq_false]
    exact hne
  rw [hie]
  have hlines : (collect_cart_lines cart).1.isEmpty = false := by
    rw [List.isEmpty_eq_false]
    intro hnil
    have hlen := collect_cart_lines_length cart
    rw [hnil, all_valid_countP cart.items hvalid] at hlen
    exact hne (List.length_eq_zero.mp hlen.symm)
  simp [hlines]

lemma confirmPersistPhase_spec (db : DB) (cart : LoadedCart)
    (payload : CreateOrder)
    (hvalid : cart.items.all (fun i => !itemInvalid i) = true) :
    (confirmPersistPhase db cart payload).2 =
      ⟨db.next_order_id, payload.order_number, payload.tg_id,
        payload.total_price, payload.delivery_method, payload.status⟩ ∧
    (confirmPersistPhase db cart payload).1.orders =
      db.orders ++ [(confirmPersistPhase db cart payload).2] ∧
    (confirmPersistPhase db cart payload).1.carts = db.carts ∧
    (confirmPersistPhase db cart payload).1.products = db.products ∧
    ((confirmPersistPhase db cart payload).1.order_items.filter
        (fun r => r.order_id == db.next_order_id)).length =
      (db.order_items.filter (fun r => r.order_id == db.next_order_id)).length +
        cart.items.length ∧
    (confirmPersistPhase db cart payload).1.cart_items =
      db.cart_items.filter (fun r => r.cart_id != cart.id) := by
  have horder : (confirmPersistPhase db cart payload).2 =
      ⟨db.next_order_id, payload.order_number, payload.tg_id,
        payload.total_price, payload.delivery_method, payload.status⟩ := rfl
  refine ⟨horder, ?_⟩
  have hunf : (confirmPersistPhase db cart payload).1 =
      clear_cart
        (applyWrites ((create_order db payload).1)
          (itemWrites db.next_order_id cart.items))
        cart.id := by
    show applyWrites db (confirmWrites db cart payload) = _
    unfold confirmWrites
    rw [applyWrites_cons, applyWrites_append]
    rfl
  set dba := (create_order db payload).1 with hdba
  set dbb := applyWrites dba (itemWrites db.next_order_id cart.items) with hdbb
  have hpres := applyWrites_preserves (itemWrites db.next_order_id cart.items)
    (itemWrites_preserves db.next_order_id cart.items) dba
  rw [← hdbb] at hpres
  have hcount := itemWrites_count db.next_order_id cart.items dba
  rw [← hdbb] at hcount
  have hcf := clear_cart_fields dbb cart.id
  rw [hunf]
  have hdbaOrders : dba.orders = db.orders ++
      [(⟨db.next_order_id, payload.order_number, payload.tg_id,
        payload.total_price, payload.delivery_method, payload.status⟩ : OrderRow)] := rfl
  refine ⟨?_, ?_, ?_, ?_, ?_⟩
  · rw [hcf.1, hpres.1, hdbaOrders, horder]
  · rw [hcf.2.2.1, hpres.2.2.1]
    rfl
  · rw [hcf.2.2.2, hpres.2.2.2.1]
    rfl
  · rw [hcf.2.1, hcount, all_valid_countP cart.items hvalid]
    have : dba.order_items = db.order_items := rfl
    rw [this]
  · show (clear_cart dbb cart.id).cart_items = _
    unfold clear_cart
    rw [hpres.2.1]
    have : dba.cart_items = db.cart_items := rfl
    rw [this]

lemma confirm_order_success (db : DB) (data : SessionData) (u : Nat)
    (num : String) (cid : Nat) (cart : LoadedCart) (nm ph ad : String)
    (hcid : data.cart_id = some cid)
    (hcart : get_cart db cid = some cart)
    (hvalid : cart.items.all (fun i => !itemInvalid i) = true)
    (hne : cart.items ≠ [])
    (hnm : data.name = some nm) (hph : data.phone_number = some ph)
    (had : data.address = some ad) :
    confirm_order db data u num =
      ((confirmPersistPhase db cart
          ⟨num, some u, nm, ph, ad, (collect_cart_lines cart).2,
            data.delivery_method, .new⟩).1,
        .success (confirmPersistPhase db cart
          ⟨num, some u, nm, ph, ad, (collect_cart_lines cart).2,
            data.delivery_method, .new⟩).2) := by
  unfold confirm_order
  rw [confirmReadPhase_success db data cid cart hcid hcart hvalid hne]
  simp only [hnm, hph, had, validateCreateOrder]

end Lemmas

/-- C2: confirming checkout on a non-empty sanitized cart (every item's
product present and active, the session fields collected) creates exactly
one Order — the orders table grows by exactly the new row — whose
OrderItem count equals the number of surviving CartItems, whose
`total_price` is the sum of `unit_price × quantity` over those items, and
afterwards the originating cart contains zero CartItems. -/
theorem c2_checkout_confirmation (db : DB) (data : SessionData) (u : Nat)
    (num : String) (cid : Nat) (cart : LoadedCart) (nm ph ad : String)
    (hcid : data.cart_id = some cid)
    (hcart : get_cart db cid = some cart)
    (hvalid : cart.items.all (fun i => !itemInvalid i) = true)
    (hne : cart.items ≠ [])
    (hnm : data.name = some nm) (hph : data.phone_number = some ph)
    (had : data.address = some ad)
    (hfresh : ∀ r ∈ db.order_items, r.order_id ≠ db.next_order_id) :
    ∃ order : OrderRow,
      (confirm_order db data u num).2 = .success order ∧
      (confirm_order db data u num).1.orders = db.orders ++ [order] ∧
      ((confirm_order db data u num).1.order_items.filter
          (fun r => r.order_id == order.id)).length = cart.items.length ∧
      order.total_price = (cart.items.map itemLineTotal).sum ∧
      (confirm_order db data u num).1.cart_items.filter
          (fun r => r.cart_id == cart.id) = [] := by
  have hrun := confirm_order_success db data u num cid cart nm ph ad
    hcid hcart hvalid hne hnm hph had
  have hspec := confirmPersistPhase_spec db cart
    ⟨num, some u, nm, ph, ad, (collect_cart_lines cart).2,
      data.delivery_method, .new⟩ hvalid
  refine ⟨(confirmPersistPhase db cart
    ⟨num, some u, nm, ph, ad, (collect_cart_lines cart).2,
      data.delivery_method, .new⟩).2, ?_, ?_, ?_, ?_, ?_⟩
  · rw [hrun]
  · rw [hrun]
    exact hspec.2.1
  · rw [hrun]
    have hid : (confirmPersistPhase db cart
        ⟨num, some u, nm, ph, ad, (collect_cart_lines cart).2,
          data.delivery_method, .new⟩).2.id = db.next_order_id := by
      rw [hspec.1]
    rw [hid, hspec.2.2.2.2.1]
    have hzero : (db.order_items.filter
        (fun r => r.order_id == db.next_order_id)) = [] := by
      apply List.filter_eq_nil_iff.mpr
      intro r hr
      simpa using hfresh r hr
    rw [hzero]
    simp
  · rw [hspec.1]
    exact collect_cart_lines_total cart
  · rw [hrun]
    simp only [hspec.2.2.2.2.2, List.filter_filter]
    apply List.filter_eq_nil_iff.mpr
    intro r _
    by_cases h : r.cart_id = cart.id <;> simp [h, bne]

/-- Witness for C2: a user (id 42) with a cart holding one active product
(price 100.00, quantity 2) and a completed checkout session; the created
order is order 1 with total 200.00. -/
theorem c2_checkout_confirmation_witness :
    (confirm_order
        ⟨[⟨1, 1, "Tea", none, 10000, none, true⟩], [⟨1, 42⟩],
          [⟨1, 1, 1, 2⟩], [], [], 2, 2, 1, 1⟩
        ⟨some 1, some "Ann", some "+79991234567", some "Main St 1",
          some "Курьер"⟩ 42 "1A2B3C4D").2 =
      .success ⟨1, "1A2B3C4D", some 42, 20000, some "Курьер", .new⟩ ∧
    (confirm_order
        ⟨[⟨1, 1, "Tea", none, 10000, none, true⟩], [⟨1, 42⟩],
          [⟨1, 1, 1, 2⟩], [], [], 2, 2, 1, 1⟩
        ⟨some 1, some "Ann", some "+79991234567", some "Main St 1",
          some "Курьер"⟩ 42 "1A2B3C4D").1.orders =
      [⟨1, "1A2B3C4D", some 42, 20000, some "Курьер", .new⟩] ∧
    ((confirm_order
        ⟨[⟨1, 1, "Tea", none, 10000, none, true⟩], [⟨1, 42⟩],
          [⟨1, 1, 1, 2⟩], [], [], 2, 2, 1, 1⟩
        ⟨some 1, some "Ann", some "+79991234567", some "Main St 1",
          some "Курьер"⟩ 42 "1A2B3C4D").1.order_items.filter
        (fun r => r.order_id == 1)).length = 1 ∧
    (20000 : Int) =
      ([(⟨1, 1, 1, 2, some ⟨1, 1, "Tea", none, 10000, none, true⟩⟩ :
          LoadedItem)].map itemLineTotal).sum ∧
    (confirm_order
        ⟨[⟨1, 1, "Tea", none, 10000, none, true⟩], [⟨1, 42⟩],
          [⟨1, 1, 1, 2⟩], [], [], 2, 2, 1, 1⟩
        ⟨some 1, some "Ann", some "+79991234567", some "Main St 1",
          some "Курьер"⟩ 42 "1A2B3C4D").1.cart_items.filter
        (fun r => r.cart_id == 1) = [] := by
  have h := c2_checkout_confirmation
    ⟨[⟨1, 1, "Tea", none, 10000, none, true⟩], [⟨1, 42⟩],
      [⟨1, 1, 1, 2⟩], [], [], 2, 2, 1, 1⟩
    ⟨some 1, some "Ann", some "+79991234567", some "Main St 1",
      some "Курьер"⟩ 42 "1A2B3C4D" 1
    ⟨1, 42, [⟨1, 1, 1, 2, some ⟨1, 1, "Tea", none, 10000, none, true⟩⟩]⟩
    "Ann" "+79991234567" "Main St 1"
    rfl (by decide) (by decide) (by decide) rfl rfl rfl
    (by intro r hr; simp at hr)
  obtain ⟨order, h1, h2, h3, h4, h5⟩ := h
  have h1x : (confirm_order
      ⟨[⟨1, 1, "Tea", none, 10000, none, true⟩], [⟨1, 42⟩],
        [⟨1, 1, 1, 2⟩], [], [], 2, 2, 1, 1⟩
      ⟨some 1, some "Ann", some "+79991234567", some "Main St 1",
        some "Курьер"⟩ 42 "1A2B3C4D").2 =
      .success ⟨1, "1A2B3C4D", some 42, 20000, some "Курьер", .new⟩ := by
    decide
  have hord : order =
      ⟨1, "1A2B3C4D", some 42, 20000, some "Курьер", .new⟩ := by
    have := h1.symm.trans h1x
    injection this
  subst hord
  refine ⟨h1x, by simpa using h2, by simpa using h3, by decide, h5⟩

/-- Counterexample for C1: with one active product (price 100.00,
quantity 2) in the cart, stopping after the first committed write of the
confirmation sequence leaves a state that is neither the initial state nor
the final state: the Order row is persisted with zero OrderItem rows and
the cart still holds its item, so the sequence is not all-or-nothing and a
zero-item Order is an observably persisted state. -/
theorem c1_counterexample :
    ¬ (∀ k : Nat,
        applyFirstK
          ⟨[⟨1, 1, "Tea", none, 10000, none, true⟩], [⟨1, 42⟩],
            [⟨1, 1, 1, 2⟩], [], [], 2, 2, 1, 1⟩
          (confirmWrites
            ⟨[⟨1, 1, "Tea", none, 10000, none, true⟩], [⟨1, 42⟩],
              [⟨1, 1, 1, 2⟩], [], [], 2, 2, 1, 1⟩
            ⟨1, 42, [⟨1, 1, 1, 2, some ⟨1, 1, "Tea", none, 10000, none, true⟩⟩]⟩
            ⟨"1A2B3C4D", some 42, "Ann", "+79991234567", "Main St 1", 20000,
              some "Курьер", .new⟩) k =
          ⟨[⟨1, 1, "Tea", none, 10000, none, true⟩], [⟨1, 42⟩],
            [⟨1, 1, 1, 2⟩], [], [], 2, 2, 1, 1⟩ ∨
        applyFirstK
          ⟨[⟨1, 1, "Tea", none, 10000, none, true⟩], [⟨1, 42⟩],
            [⟨1, 1, 1, 2⟩], [], [], 2, 2, 1, 1⟩
          (confirmWrites
            ⟨[⟨1, 1, "Tea", none, 10000, none, true⟩], [⟨1, 42⟩],
              [⟨1, 1, 1, 2⟩], [], [], 2, 2, 1, 1⟩
            ⟨1, 42, [⟨1, 1, 1, 2, some ⟨1, 1, "Tea", none, 10000, none, true⟩⟩]⟩
            ⟨"1A2B3C4D", some 42, "Ann", "+79991234567", "Main St 1", 20000,
              some "Курьер", .new⟩) k =
        applyWrites
          ⟨[⟨1, 1, "Tea", none, 10000, none, true⟩], [⟨1, 42⟩],
            [⟨1, 1, 1, 2⟩], [], [], 2, 2, 1, 1⟩
          (confirmWrites
            ⟨[⟨1, 1, "Tea", none, 10000, none, true⟩], [⟨1, 42⟩],
              [⟨1, 1, 1, 2⟩], [], [], 2, 2, 1, 1⟩
            ⟨1, 42, [⟨1, 1, 1, 2, some ⟨1, 1, "Tea", none, 10000, none, true⟩⟩]⟩
            ⟨"1A2B3C4D", some 42, "Ann", "+79991234567", "Main St 1", 20000,
              some "Курьер", .new⟩)) ∧
    (applyFirstK
        ⟨[⟨1, 1, "Tea", none, 10000, none, true⟩], [⟨1, 42⟩],
          [⟨1, 1, 1, 2⟩], [], [], 2, 2, 1, 1⟩
        (confirmWrites
          ⟨[⟨1, 1, "Tea", none, 10000, none, true⟩], [⟨1, 42⟩],
            [⟨1, 1, 1, 2⟩], [], [], 2, 2, 1, 1⟩
          ⟨1, 42, [⟨1, 1, 1, 2, some ⟨1, 1, "Tea", none, 10000, none, true⟩⟩]⟩
          ⟨"1A2B3C4D", some 42, "Ann", "+79991234567", "Main St 1", 20000,
            some "Курьер", .new⟩) 1).orders =
      [⟨1, "1A2B3C4D", some 42, 20000, some "Курьер", .new⟩] ∧
    (applyFirstK
        ⟨[⟨1, 1, "Tea", none, 10000, none, true⟩], [⟨1, 42⟩],
          [⟨1, 1, 1, 2⟩], [], [], 2, 2, 1, 1⟩
        (confirmWrites
          ⟨[⟨1, 1, "Tea", none, 10000, none, true⟩], [⟨1, 42⟩],
            [⟨1, 1, 1, 2⟩], [], [], 2, 2, 1, 1⟩
          ⟨1, 42, [⟨1, 1, 1, 2, some ⟨1, 1, "Tea", none, 10000, none, true⟩⟩]⟩
          ⟨"1A2B3C4D", some 42, "Ann", "+79991234567", "Main St 1", 20000,
            some "Курьер", .new⟩) 1).order_items = [] ∧
    (applyFirstK
        ⟨[⟨1, 1, "Tea", none, 10000, none, true⟩], [⟨1, 42⟩],
          [⟨1, 1, 1, 2⟩], [], [], 2, 2, 1, 1⟩
        (confirmWrites
          ⟨[⟨1, 1, "Tea", none, 10000, none, true⟩], [⟨1, 42⟩],
            [⟨1, 1, 1, 2⟩], [], [], 2, 2, 1, 1⟩
          ⟨1, 42, [⟨1, 1, 1, 2, some ⟨1, 1, "Tea", none, 10000, none, true⟩⟩]⟩
          ⟨"1A2B3C4D", some 42, "Ann", "+79991234567", "Main St 1", 20000,
            some "Курьер", .new⟩) 1).cart_items = [⟨1, 1, 1, 2⟩] := by
  refine ⟨?_, by decide, by decide, by decide⟩
  intro h
  rcases h 1 with h1 | h1 <;> revert h1 <;> decide

/-- C1 (amended): the confirmation steps are committed one at a time.
When every step runs, the Order, its OrderItems and the cart-clearing
delete are all persisted; stopping before the first commit leaves the
database unchanged; but stopping after `k ≥ 1` commits keeps every prior
commit — the Order row stays persisted and nothing is rolled back, the
cart is untouched until the final commit, and after exactly one commit the
Order is persisted with zero of its OrderItems. -/
theorem c1_per_step_commit (db : DB) (cart : LoadedCart)
    (payload : CreateOrder)
    (hvalid : cart.items.all (fun i => !itemInvalid i) = true)
    (hfresh : ∀ r ∈ db.order_items, r.order_id ≠ db.next_order_id) :
    (applyWrites db (confirmWrites db cart payload)).orders =
      db.orders ++ [⟨db.next_order_id, payload.order_number, payload.tg_id,
        payload.total_price, payload.delivery_method, payload.status⟩] ∧
    ((applyWrites db (confirmWrites db cart payload)).order_items.filter
        (fun r => r.order_id == db.next_order_id)).length =
      cart.items.length ∧
    (applyWrites db (confirmWrites db cart payload)).cart_items =
      db.cart_items.filter (fun r => r.cart_id != cart.id) ∧
    applyFirstK db (confirmWrites db cart payload) 0 = db ∧
    (∀ k, 1 ≤ k → k < (confirmWrites db cart payload).length →
      (applyFirstK db (confirmWrites db cart payload) k).orders =
        db.orders ++ [⟨db.next_order_id, payload.order_number, payload.tg_id,
          payload.total_price, payload.delivery_method, payload.status⟩] ∧
      (applyFirstK db (confirmWrites db cart payload) k).cart_items =
        db.cart_items) ∧
    (applyFirstK db (confirmWrites db cart payload) 1).order_items =
      db.order_items := by
  have hspec := confirmPersistPhase_spec db cart payload hvalid
  have hfull : applyWrites db (confirmWrites db cart payload) =
      (confirmPersistPhase db cart payload).1 := rfl
  refine ⟨?_, ?_, ?_, rfl, ?_, rfl⟩
  · rw [hfull, hspec.2.1, hspec.1]
  · rw [hfull, hspec.2.2.2.2.1]
    have hzero : (db.order_items.filter
        (fun r => r.order_id == db.next_order_id)) = [] := by
      apply List.filter_eq_nil_iff.mpr
      intro r hr
      simpa using hfresh r hr
    rw [hzero]
    simp
  · rw [hfull]
    exact hspec.2.2.2.2.2
  · intro k hk1 hklen
    obtain ⟨j, rfl⟩ : ∃ j, k = j + 1 := ⟨k - 1, by omega⟩
    have hj : j ≤ (itemWrites db.next_order_id cart.items).length := by
      simp only [confirmWrites, List.length_cons, List.length_append,
        List.length_nil] at hklen
      omega
    have htake : (confirmWrites db cart payload).take (j + 1) =
        (fun d => (create_order d payload).1) ::
          (itemWrites db.next_order_id cart.items).take j := by
      simp only [confirmWrites, List.take_succ_cons]
      rw [List.take_append_of_le_length hj]
    rw [applyFirstK, htake, applyWrites_cons]
    have hpres := applyWrites_preserves
      ((itemWrites db.next_order_id cart.items).take j)
      (fun w hw => itemWrites_preserves db.next_order_id cart.items w
        (List.take_subset j _ hw))
      ((create_order db payload).1)
    exact ⟨hpres.1, hpres.2.1⟩

/-- Witness for C1 (amended): the concrete one-item cart; failure after
the first commit leaves order 1 persisted with no items and the cart
intact, while the full run persists everything. -/
theorem c1_per_step_commit_witness :
    (applyWrites
        ⟨[⟨1, 1, "Tea", none, 10000, none, true⟩], [⟨1, 42⟩],
          [⟨1, 1, 1, 2⟩], [], [], 2, 2, 1, 1⟩
        (confirmWrites
          ⟨[⟨1, 1, "Tea", none, 10000, none, true⟩], [⟨1, 42⟩],
            [⟨1, 1, 1, 2⟩], [], [], 2, 2, 1, 1⟩
          ⟨1, 42, [⟨1, 1, 1, 2, some ⟨1, 1, "Tea", none, 10000, none, true⟩⟩]⟩
          ⟨"1A2B3C4D", some 42, "Ann", "+79991234567", "Main St 1", 20000,
            some "Курьер", .new⟩)).orders =
      [] ++ [⟨1, "1A2B3C4D", some 42, 20000, some "Курьер", .new⟩] ∧
    (applyFirstK
        ⟨[⟨1, 1, "Tea", none, 10000, none, true⟩], [⟨1, 42⟩],
          [⟨1, 1, 1, 2⟩], [], [], 2, 2, 1, 1⟩
        (confirmWrites
          ⟨[⟨1, 1, "Tea", none, 10000, none, true⟩], [⟨1, 42⟩],
            [⟨1, 1, 1, 2⟩], [], [], 2, 2, 1, 1⟩
          ⟨1, 42, [⟨1, 1, 1, 2, some ⟨1, 1, "Tea", none, 10000, none, true⟩⟩]⟩
          ⟨"1A2B3C4D", some 42, "Ann", "+79991234567", "Main St 1", 20000,
            some "Курьер", .new⟩) 1).orders =
      [] ++ [⟨1, "1A2B3C4D", some 42, 20000, some "Курьер", .new⟩] ∧
    (applyFirstK
        ⟨[⟨1, 1, "Tea", none, 10000, none, true⟩], [⟨1, 42⟩],
          [⟨1, 1, 1, 2⟩], [], [], 2, 2, 1, 1⟩
        (confirmWrites
          ⟨[⟨1, 1, "Tea", none, 10000, none, true⟩], [⟨1, 42⟩],
            [⟨1, 1, 1, 2⟩], [], [], 2, 2, 1, 1⟩
          ⟨1, 42, [⟨1, 1, 1, 2, some ⟨1, 1, "Tea", none, 10000, none, true⟩⟩]⟩
          ⟨"1A2B3C4D", some 42, "Ann", "+79991234567", "Main St 1", 20000,
            some "Курьер", .new⟩) 1).cart_items = [⟨1, 1, 1, 2⟩] ∧
    (applyFirstK
        ⟨[⟨1, 1, "Tea", none, 10000, none, true⟩], [⟨1, 42⟩],
          [⟨1, 1, 1, 2⟩], [], [], 2, 2, 1, 1⟩
        (confirmWrites
          ⟨[⟨1, 1, "Tea", none, 10000, none, true⟩], [⟨1, 42⟩],
            [⟨1, 1, 1, 2⟩], [], [], 2, 2, 1, 1⟩
          ⟨1, 42, [⟨1, 1, 1, 2, some ⟨1, 1, "Tea", none, 10000, none, true⟩⟩]⟩
          ⟨"1A2B3C4D", some 42, "Ann", "+79991234567", "Main St 1", 20000,
            some "Курьер", .new⟩) 1).order_items = [] := by
  have h := c1_per_step_commit
    ⟨[⟨1, 1, "Tea", none, 10000, none, true⟩], [⟨1, 42⟩],
      [⟨1, 1, 1, 2⟩], [], [], 2, 2, 1, 1⟩
    ⟨1, 42, [⟨1, 1, 1, 2, some ⟨1, 1, "Tea", none, 10000, none, true⟩⟩]⟩
    ⟨"1A2B3C4D", some 42, "Ann", "+79991234567", "Main St 1", 20000,
      some "Курьер", .new⟩
    (by decide) (by intro r hr; simp at hr)
  have hk := h.2.2.2.2.1 1 (by decide) (by decide)
  exact ⟨h.1, hk.1, hk.2, h.2.2.2.2.2⟩

/-- C3 at the failing input: `OrderManager.create_order` evaluated on two
`CreateOrder` payloads that differ only in the collected delivery `name`,
`phone` and `address` produces identical database states and identical
`Order` rows — the persisted row retains only the order number, user
reference, total, delivery method and status, and the contact fields are
discarded (the `orders` table has no columns for them), contradicting the
claim that the inserted row carries the delivery name, phone and
address. -/
theorem c3_order_row_drops_contact_fields :
    create_order ⟨[], [], [], [], [], 1, 1, 1, 1⟩
        ⟨"1A2B3C4D", some 42, "Ann", "+79991234567", "Main St 1", 10000,
          some "Курьер", .new⟩ =
      create_order ⟨[], [], [], [], [], 1, 1, 1, 1⟩
        ⟨"1A2B3C4D", some 42, "Bob", "+70000000000", "Other St 9", 10000,
          some "Курьер", .new⟩ ∧
    (create_order ⟨[], [], [], [], [], 1, 1, 1, 1⟩
        ⟨"1A2B3C4D", some 42, "Ann", "+79991234567", "Main St 1", 10000,
          some "Курьер", .new⟩).2 =
      ⟨1, "1A2B3C4D", some 42, 10000, some "Курьер", .new⟩ := by
  decide

section MoreLemmas

lemma getProduct_congr (db1 db2 : DB) (pid : Nat)
    (h : db1.products = db2.products) : getProduct db1 pid = getProduct db2 pid := by
  unfold getProduct
  rw [h]

lemma loadItem_congr (db1 db2 : DB) (r : CartItemRow)
    (h : db1.products = db2.products) : loadItem db1 r = loadItem db2 r := by
  unfold loadItem
  rw [getProduct_congr db1 db2 r.product_id h]

lemma map_filter_comm {α β : Type} (f : α → β) (p : β → Bool) (l : List α) :
    (l.map f).filter p = (l.filter (fun a => p (f a))).map f := by
  induction l with
  | nil => rfl
  | cons hd tl ih =>
      simp only [List.map_cons, List.filter_cons]
      by_cases h : p (f hd)
      · simp [h, ih]
      · have hf : p (f hd) = false := by simpa using h
        simp [hf, ih]

lemma get_cart_by_user_elim (db : DB) (tg : Nat) (cart : LoadedCart)
    (h : get_cart_by_user db tg = some cart) :
    ∃ row, db.carts.find? (fun c => c.tg_id == tg) = some row ∧
      cart = loadCart db row ∧ row.tg_id = tg := by
  unfold get_cart_by_user at h
  cases hf : db.carts.find? (fun c => c.tg_id == tg) with
  | none => rw [hf] at h; simp at h
  | some row =>
      rw [hf] at h
      have h2 : some (loadCart db row) = some cart := h
      have h3 := List.find?_some hf
      have h4 : row.tg_id = tg := by simpa using h3
      exact ⟨row, rfl, (Option.some_inj.mp h2).symm, h4⟩

end MoreLemmas

/-- Counterexample for C4: no boolean component of (or function of) the
value `sanitize_cart` returns can indicate whether anything was removed:
sanitizing a loaded one-item cart whose product row is missing and
sanitizing the already-clean loaded cart that results from it return
exactly the same value, while removal happened only in the first case.
The claim that sanitize "returns the refreshed Cart together with a
boolean indicating whether anything was removed" is therefore false of
`sanitize_cart`, which returns only the refreshed cart. -/
theorem c4_counterexample :
    ¬ ∃ flag : DB × Option LoadedCart → Bool,
      ∀ (db : DB) (tg : Nat) (cart : LoadedCart),
        get_cart_by_user db tg = some cart →
        flag (sanitize_cart db cart) = cart.items.any itemInvalid := by
  rintro ⟨flag, hflag⟩
  have h1 := hflag ⟨[], [⟨1, 42⟩], [⟨1, 1, 7, 1⟩], [], [], 2, 2, 1, 1⟩ 42
    ⟨1, 42, [⟨1, 1, 7, 1, none⟩]⟩ (by decide)
  have h2 := hflag ⟨[], [⟨1, 42⟩], [], [], [], 2, 2, 1, 1⟩ 42
    ⟨1, 42, []⟩ (by decide)
  have heq : sanitize_cart ⟨[], [⟨1, 42⟩], [⟨1, 1, 7, 1⟩], [], [], 2, 2, 1, 1⟩
      ⟨1, 42, [⟨1, 1, 7, 1, none⟩]⟩ =
      sanitize_cart ⟨[], [⟨1, 42⟩], [], [], [], 2, 2, 1, 1⟩ ⟨1, 42, []⟩ := by
    decide
  rw [heq] at h1
  rw [h1] at h2
  revert h2
  decide

lemma sanitize_cart_fst (db : DB) (cart : LoadedCart) :
    (sanitize_cart db cart).1 = sanitizeDeletes db cart.items := by
  unfold sanitize_cart
  by_cases h : cart.items.any itemInvalid <;> simp [h]

lemma sanitize_pred_eq (db : DB) (row : CartRow)
    (hnodup : (db.cart_items.map CartItemRow.id).Nodup)
    (r : CartItemRow) (hr : r ∈ db.cart_items) :
    (loadCart db row).items.any (fun i => itemInvalid i && i.id == r.id) =
      (r.cart_id == row.id && rowInvalid db r) := by
  have hiff :
      ((loadCart db row).items.any (fun i => itemInvalid i && i.id == r.id)
          = true) ↔
        ((r.cart_id == row.id && rowInvalid db r) = true) := by
    constructor
    · intro h
      rw [List.any_eq_true] at h
      obtain ⟨i, hi, hcond⟩ := h
      have hi2 : i ∈ (db.cart_items.filter
          (fun r2 => r2.cart_id == row.id)).map (loadItem db) := hi
      rw [List.mem_map] at hi2
      obtain ⟨r0, hr0, hload⟩ := hi2
      rw [List.mem_filter] at hr0
      simp only [Bool.and_eq_true, beq_iff_eq] at hcond
      have hid : r0.id = r.id := by
        rw [← hload] at hcond
        exact hcond.2
      have hreq : r0 = r := List.inj_on_of_nodup_map hnodup hr0.1 hr hid
      simp only [Bool.and_eq_true, beq_iff_eq]
      constructor
      · rw [← hreq]
        simpa using hr0.2
      · rw [rowInvalid, ← hreq, hload]
        exact hcond.1
    · intro h
      simp only [Bool.and_eq_true, beq_iff_eq] at h
      rw [List.any_eq_true]
      refine ⟨loadItem db r, ?_, ?_⟩
      · show loadItem db r ∈ (db.cart_items.filter
          (fun r2 => r2.cart_id == row.id)).map (loadItem db)
        rw [List.mem_map]
        exact ⟨r, List.mem_filter.mpr ⟨hr, by simpa using h.1⟩, rfl⟩
      · simp only [Bool.and_eq_true, beq_iff_eq]
        exact ⟨h.2, rfl⟩
  exact Bool.eq_iff_iff.mpr hiff

/-- C4 (amended): on a loaded cart, `sanitize_cart` removes from the
`cart_items` table exactly this cart's rows whose product is missing or
inactive, leaving every other row (and in particular every quantity)
untouched; it returns the refreshed cart, whose items are exactly the
surviving ones; and on a cart with no invalid items it is a no-op that
returns the very cart it was given.  No removal flag is returned. -/
theorem c4_sanitize_exact (db : DB) (tg : Nat) (cart : LoadedCart)
    (hload : get_cart_by_user db tg = some cart)
    (hnodup : (db.cart_items.map CartItemRow.id).Nodup) :
    (sanitize_cart db cart).1.cart_items =
      db.cart_items.filter
        (fun r => !(r.cart_id == cart.id && rowInvalid db r)) ∧
    (sanitize_cart db cart).2 =
      some ⟨cart.id, cart.tg_id, cart.items.filter (fun i => !itemInvalid i)⟩ ∧
    (cart.items.all (fun i => !itemInvalid i) = true →
      sanitize_cart db cart = (db, some cart)) := by
  obtain ⟨row, hfind, hcart, htg⟩ := get_cart_by_user_elim db tg cart hload
  have hid : cart.id = row.id := by rw [hcart]; rfl
  have htgid : cart.tg_id = row.tg_id := by rw [hcart]; rfl
  have hA : (sanitize_cart db cart).1.cart_items =
      db.cart_items.filter
        (fun r => !(r.cart_id == cart.id && rowInvalid db r)) := by
    rw [sanitize_cart_fst, sanitizeDeletes_cart_items]
    apply List.filter_congr
    intro r hr
    have hpred := sanitize_pred_eq db row hnodup r hr
    rw [hcart, hpred]
    rfl
  refine ⟨hA, ?_, fun hall => sanitize_cart_noop db cart hall⟩
  by_cases hany : cart.items.any itemInvalid = true
  · have hsnd : (sanitize_cart db cart).2 =
        get_cart_by_user (sanitizeDeletes db cart.items) cart.tg_id := by
      unfold sanitize_cart
      simp [hany]
    have hfields := sanitizeDeletes_fields cart.items db
    have hdb1 : (sanitizeDeletes db cart.items).cart_items =
        db.cart_items.filter
          (fun r => !(r.cart_id == cart.id && rowInvalid db r)) := by
      rw [← sanitize_cart_fst]
      exact hA
    have hmapf : ((sanitizeDeletes db cart.items).cart_items.filter
          (fun r => r.cart_id == row.id)).map
            (loadItem (sanitizeDeletes db cart.items)) =
        ((sanitizeDeletes db cart.items).cart_items.filter
          (fun r => r.cart_id == row.id)).map (loadItem db) := by
      apply List.map_congr_left
      intro r _
      exact loadItem_congr _ db r hfields.1
    have hitems : (loadCart (sanitizeDeletes db cart.items) row).items =
        cart.items.filter (fun i => !itemInvalid i) := by
      show ((sanitizeDeletes db cart.items).cart_items.filter
          (fun r => r.cart_id == row.id)).map
            (loadItem (sanitizeDeletes db cart.items)) = _
      rw [hmapf, hdb1]
      have hrhs : cart.items.filter (fun i => !itemInvalid i) =
          ((db.cart_items.filter (fun r2 => r2.cart_id == row.id)).map
            (loadItem db)).filter (fun i => !itemInvalid i) := by
        rw [hcart]
        rfl
      rw [hrhs, map_filter_comm]
      apply congrArg (List.map (loadItem db))
      rw [List.filter_filter, List.filter_filter]
      apply List.filter_congr
      intro r _
      rw [hid]
      have hrow : rowInvalid db r = itemInvalid (loadItem db r) := rfl
      rw [hrow]
      cases hc : (r.cart_id == row.id) <;>
        cases hi : itemInvalid (loadItem db r) <;> simp [hc, hi]
    have hfinal : loadCart (sanitizeDeletes db cart.items) row =
        ⟨cart.id, cart.tg_id,
          cart.items.filter (fun i => !itemInvalid i)⟩ := by
      rw [hid, htgid]
      have : loadCart (sanitizeDeletes db cart.items) row =
          ⟨row.id, row.tg_id,
            (loadCart (sanitizeDeletes db cart.items) row).items⟩ := rfl
      rw [this, hitems]
    have hpred2 : (fun c : CartRow => c.tg_id == cart.tg_id) =
        (fun c : CartRow => c.tg_id == tg) := by
      funext c
      rw [htgid, htg]
    rw [hsnd]
    unfold get_cart_by_user
    rw [hfields.2.1, hpred2, hfind]
    show some (loadCart (sanitizeDeletes db cart.items) row) = _
    rw [hfinal]
  · have hall : cart.items.all (fun i => !itemInvalid i) = true := by
      rw [List.all_eq_true]
      intro i hi
      have hany2 : cart.items.any itemInvalid = false := by
        simpa using hany
      have := List.any_eq_false.mp hany2 i hi
      simpa using this
    rw [sanitize_cart_noop db cart hall]
    have hfilter : cart.items.filter (fun i => !itemInvalid i) = cart.items :=
      List.filter_eq_self.mpr (fun i hi => List.all_eq_true.mp hall i hi)
    rw [hfilter]

/-- Witness for C4 (amended): a loaded two-item cart, one item on an
active product and one on an inactive product; sanitizing removes exactly
the inactive-product row and returns the refreshed one-item cart. -/
theorem c4_sanitize_exact_witness :
    (sanitize_cart
        ⟨[⟨1, 1, "Tea", none, 10000, none, true⟩,
          ⟨2, 1, "Off", none, 5000, none, false⟩],
          [⟨1, 42⟩], [⟨1, 1, 1, 2⟩, ⟨2, 1, 2, 3⟩], [], [], 2, 3, 1, 1⟩
        ⟨1, 42,
          [⟨1, 1, 1, 2, some ⟨1, 1, "Tea", none, 10000, none, true⟩⟩,
           ⟨2, 1, 2, 3, some ⟨2, 1, "Off", none, 5000, none, false⟩⟩]⟩).1.cart_items =
      ([⟨1, 1, 1, 2⟩, ⟨2, 1, 2, 3⟩] : List CartItemRow).filter
        (fun r => !(r.cart_id == 1 && rowInvalid
          ⟨[⟨1, 1, "Tea", none, 10000, none, true⟩,
            ⟨2, 1, "Off", none, 5000, none, false⟩],
            [⟨1, 42⟩], [⟨1, 1, 1, 2⟩, ⟨2, 1, 2, 3⟩], [], [], 2, 3, 1, 1⟩ r)) ∧
    (sanitize_cart
        ⟨[⟨1, 1, "Tea", none, 10000, none, true⟩,
          ⟨2, 1, "Off", none, 5000, none, false⟩],
          [⟨1, 42⟩], [⟨1, 1, 1, 2⟩, ⟨2, 1, 2, 3⟩], [], [], 2, 3, 1, 1⟩
        ⟨1, 42,
          [⟨1, 1, 1, 2, some ⟨1, 1, "Tea", none, 10000, none, true⟩⟩,
           ⟨2, 1, 2, 3, some ⟨2, 1, "Off", none, 5000, none, false⟩⟩]⟩).2 =
      some ⟨1, 42,
        ([⟨1, 1, 1, 2, some ⟨1, 1, "Tea", none, 10000, none, true⟩⟩,
          ⟨2, 1, 2, 3, some ⟨2, 1, "Off", none, 5000, none, false⟩⟩] :
            List LoadedItem).filter (fun i => !itemInvalid i)⟩ := by
  have h := c4_sanitize_exact
    ⟨[⟨1, 1, "Tea", none, 10000, none, true⟩,
      ⟨2, 1, "Off", none, 5000, none, false⟩],
      [⟨1, 42⟩], [⟨1, 1, 1, 2⟩, ⟨2, 1, 2, 3⟩], [], [], 2, 3, 1, 1⟩ 42
    ⟨1, 42,
      [⟨1, 1, 1, 2, some ⟨1, 1, "Tea", none, 10000, none, true⟩⟩,
       ⟨2, 1, 2, 3, some ⟨2, 1, "Off", none, 5000, none, false⟩⟩]⟩
    (by decide) (by decide)
  exact ⟨h.1, h.2.1⟩

lemma rowInvalid_products_congr (db1 db2 : DB) (r : CartItemRow)
    (h : db1.products = db2.products) : rowInvalid db1 r = rowInvalid db2 r := by
  unfold rowInvalid
  rw [loadItem_congr db1 db2 r h]

lemma rowInvalid_pid (db : DB) (r1 r2 : CartItemRow)
    (h : r1.product_id = r2.product_id) : rowInvalid db r1 = rowInvalid db r2 := by
  unfold rowInvalid itemInvalid loadItem
  rw [h]

lemma refresh_cart_db_noop (db : DB) (tg : Nat)
    (h : ∀ r ∈ db.cart_items, rowInvalid db r = false) :
    refresh_cart_db db tg = db := by
  unfold refresh_cart_db
  cases hc : get_cart_by_user db tg with
  | none => rfl
  | some cart =>
      obtain ⟨row, hfind, hcart, htg⟩ := get_cart_by_user_elim db tg cart hc
      have hall : cart.items.all (fun i => !itemInvalid i) = true := by
        rw [List.all_eq_true]
        intro i hi
        rw [hcart] at hi
        have hi2 : i ∈ (db.cart_items.filter
            (fun r2 => r2.cart_id == row.id)).map (loadItem db) := hi
        rw [List.mem_map] at hi2
        obtain ⟨r, hr, hload⟩ := hi2
        rw [List.mem_filter] at hr
        have h2 : itemInvalid (loadItem db r) = false := h r hr.1
        rw [← hload]
        simp [h2]
      show (sanitize_cart db cart).1 = db
      rw [sanitize_cart_noop db cart hall]

lemma refresh_rows_subset (db : DB) (tg : Nat) :
    ∀ r ∈ (refresh_cart_db db tg).cart_items, r ∈ db.cart_items := by
  unfold refresh_cart_db
  cases hc : get_cart_by_user db tg with
  | none => intro r hr; exact hr
  | some cart =>
      intro r hr
      have hr2 : r ∈ (sanitize_cart db cart).1.cart_items := hr
      rw [sanitize_cart_fst, sanitizeDeletes_cart_items] at hr2
      exact (List.mem_filter.mp hr2).1

lemma update_count_eq_none (db : DB) (id : Nat) (q : Int)
    (hf : db.cart_items.find? (fun x => x.id == id) = none) :
    update_cart_item_count db id q = (db, .notFound) := by
  unfold update_cart_item_count
  rw [hf]

lemma update_count_eq_le (db : DB) (id : Nat) (q : Int) (r0 : CartItemRow)
    (hf : db.cart_items.find? (fun x => x.id == id) = some r0) (hq : q ≤ 0) :
    update_cart_item_count db id q = (db, .integrityError) := by
  unfold update_cart_item_count
  rw [hf]
  simp only [hq, if_pos]

lemma update_count_eq_pos (db : DB) (id : Nat) (q : Int) (r0 : CartItemRow)
    (hf : db.cart_items.find? (fun x => x.id == id) = some r0) (hq : 0 < q) :
    update_cart_item_count db id q =
      ({ db with cart_items := (db.cart_items.map
          (fun x => if x.id == id then { r0 with quantity := q } else x)) },
        .updated { r0 with quantity := q }) := by
  unfold update_cart_item_count
  rw [hf]
  simp only [hq, if_neg (by omega : ¬ q ≤ 0)]

lemma update_count_preserves_pos (db : DB) (id : Nat) (q : Int)
    (hpos : ∀ r ∈ db.cart_items, 0 < r.quantity) :
    ∀ r ∈ (update_cart_item_count db id q).1.cart_items, 0 < r.quantity := by
  cases hf : db.cart_items.find? (fun x => x.id == id) with
  | none =>
      rw [update_count_eq_none db id q hf]
      exact hpos
  | some r0 =>
      by_cases hq : q ≤ 0
      · rw [update_count_eq_le db id q r0 hf hq]
        exact hpos
      · rw [update_count_eq_pos db id q r0 hf (by omega)]
        intro r hr
        rw [List.mem_map] at hr
        obtain ⟨y, hy, hxy⟩ := hr
        by_cases hid : (y.id == id) = true
        · rw [← hxy, if_pos hid]
          show 0 < q
          omega
        · have hid2 : (y.id == id) = false := by simpa using hid
          rw [← hxy, if_neg (by simp [hid2])]
          exact hpos y hy

lemma decrease_eq_deleted (db : DB) (u item_id : Nat) (item : CartItemRow)
    (cartRow : CartRow)
    (hf : db.cart_items.find? (fun x => x.id == item_id) = some item)
    (hc : db.carts.find? (fun c => c.id == item.cart_id) = some cartRow)
    (htg : cartRow.tg_id = u) (hq : item.quantity - 1 ≤ 0) :
    decrease_cart_item db u item_id =
      (refresh_cart_db ((delete_cart_item db item.id).1) u, .deleted) := by
  unfold decrease_cart_item
  have ht2 : (cartRow.tg_id != u) = false := by simp [htg]
  simp [hf, hc, ht2, hq]

lemma decrease_eq_updated (db : DB) (u item_id : Nat) (item : CartItemRow)
    (cartRow : CartRow)
    (hf : db.cart_items.find? (fun x => x.id == item_id) = some item)
    (hc : db.carts.find? (fun c => c.id == item.cart_id) = some cartRow)
    (htg : cartRow.tg_id = u) (hq : 0 < item.quantity - 1) :
    decrease_cart_item db u item_id =
      (refresh_cart_db ({ db with cart_items := (db.cart_items.map
          (fun x => if x.id == item.id
            then { item with quantity := item.quantity - 1 } else x)) }) u,
        .updated { item with quantity := item.quantity - 1 }) := by
  have hitemid : item.id = item_id := by
    have := List.find?_some hf
    simpa using this
  have hf2 : db.cart_items.find? (fun x => x.id == item.id) = some item := by
    rw [show (fun x : CartItemRow => x.id == item.id) =
        (fun x : CartItemRow => x.id == item_id) from by
      funext x
      rw [hitemid]]
    exact hf
  unfold decrease_cart_item
  have ht2 : (cartRow.tg_id != u) = false := by simp [htg]
  have hupd := update_count_eq_pos db item.id (item.quantity - 1) item hf2 hq
  simp [hf, hc, ht2, hupd, (show ¬ item.quantity - 1 ≤ 0 by omega)]

lemma decrease_preserves_pos (db : DB) (u item_id : Nat)
    (hpos : ∀ r ∈ db.cart_items, 0 < r.quantity) :
    ∀ r ∈ (decrease_cart_item db u item_id).1.cart_items, 0 < r.quantity := by
  cases hf : db.cart_items.find? (fun x => x.id == item_id) with
  | none =>
      unfold decrease_cart_item
      rw [hf]
      exact hpos
  | some item =>
      cases hc : db.carts.find? (fun c => c.id == item.cart_id) with
      | none =>
          unfold decrease_cart_item
          simp only [hf, hc]
          exact hpos
      | some cartRow =>
          by_cases ht : (cartRow.tg_id != u) = true
          · unfold decrease_cart_item
            simp only [hf, hc, ht, if_true]
            exact hpos
          · have htg : cartRow.tg_id = u := by simpa using ht
            by_cases hq : item.quantity - 1 ≤ 0
            · rw [decrease_eq_deleted db u item_id item cartRow hf hc htg hq]
              intro r hr
              have hr2 := refresh_rows_subset _ u r hr
              rw [delete_cart_item_fst] at hr2
              exact hpos r (List.mem_filter.mp hr2).1
            · rw [decrease_eq_updated db u item_id item cartRow hf hc htg
                (by omega)]
              intro r hr
              have hr2 := refresh_rows_subset _ u r hr
              have hr3 : r ∈ db.cart_items.map
                  (fun x => if x.id == item.id
                    then { item with quantity := item.quantity - 1 }
                    else x) := hr2
              rw [List.mem_map] at hr3
              obtain ⟨y, hy, hxy⟩ := hr3
              by_cases hid : (y.id == item.id) = true
              · rw [← hxy, if_pos hid]
                show 0 < item.quantity - 1
                omega
              · have hid2 : (y.id == item.id) = false := by simpa using hid
                rw [← hxy, if_neg (by simp [hid2])]
                exact hpos y hy

/-- Counterexample for C5: a request to set an existing CartItem's
quantity to 0 via `update_cart_item_count` does not delete the row — the
code writes the value unconditionally and the commit fails on the
`quantity > 0` check constraint, leaving the table unchanged with the row
still present (quantity 2). -/
theorem c5_counterexample :
    update_cart_item_count
        ⟨[⟨1, 1, "Tea", none, 10000, none, true⟩], [⟨1, 42⟩],
          [⟨1, 1, 1, 2⟩], [], [], 2, 2, 1, 1⟩ 1 0 =
      (⟨[⟨1, 1, "Tea", none, 10000, none, true⟩], [⟨1, 42⟩],
          [⟨1, 1, 1, 2⟩], [], [], 2, 2, 1, 1⟩, .integrityError) ∧
    (update_cart_item_count
        ⟨[⟨1, 1, "Tea", none, 10000, none, true⟩], [⟨1, 42⟩],
          [⟨1, 1, 1, 2⟩], [], [], 2, 2, 1, 1⟩ 1 0).1.cart_items =
      [⟨1, 1, 1, 2⟩] := by
  decide

/-- C5 (amended): the decrease handler deletes the row when the
decremented quantity would drop to 0 or below and updates it otherwise
(returning the resulting item or a deleted/absent signal); the CRUD set
operation `update_cart_item_count` updates with a positive quantity and
returns the item, signals not-found for a missing row, and on a
non-positive quantity does not delete the row — the commit fails on the
check constraint and the table is unchanged; and both operations preserve
the invariant that every persisted CartItem has quantity > 0. -/
theorem c5_quantity_invariant :
    (∀ (db : DB) (id : Nat) (q : Int) (r0 : CartItemRow),
      db.cart_items.find? (fun x => x.id == id) = some r0 → 0 < q →
      update_cart_item_count db id q =
        ({ db with cart_items := (db.cart_items.map
            (fun x => if x.id == id then { r0 with quantity := q } else x)) },
          .updated { r0 with quantity := q })) ∧
    (∀ (db : DB) (id : Nat) (q : Int) (r0 : CartItemRow),
      db.cart_items.find? (fun x => x.id == id) = some r0 → q ≤ 0 →
      update_cart_item_count db id q = (db, .integrityError)) ∧
    (∀ (db : DB) (id : Nat) (q : Int),
      db.cart_items.find? (fun x => x.id == id) = none →
      update_cart_item_count db id q = (db, .notFound)) ∧
    (∀ (db : DB) (u item_id : Nat) (item : CartItemRow) (cartRow : CartRow),
      db.cart_items.find? (fun x => x.id == item_id) = some item →
      db.carts.find? (fun c => c.id == item.cart_id) = some cartRow →
      cartRow.tg_id = u →
      (∀ r ∈ db.cart_items, rowInvalid db r = false) →
      ((item.quantity ≤ 1 →
        decrease_cart_item db u item_id =
          ({ db with cart_items := (db.cart_items.filter
              (fun x => x.id != item.id)) }, .deleted)) ∧
       (1 < item.quantity →
        decrease_cart_item db u item_id =
          ({ db with cart_items := (db.cart_items.map
              (fun x => if x.id == item.id
                then { item with quantity := item.quantity - 1 } else x)) },
            .updated { item with quantity := item.quantity - 1 })))) ∧
    (∀ (db : DB) (id : Nat) (q : Int),
      (∀ r ∈ db.cart_items, 0 < r.quantity) →
      ∀ r ∈ (update_cart_item_count db id q).1.cart_items, 0 < r.quantity) ∧
    (∀ (db : DB) (u item_id : Nat),
      (∀ r ∈ db.cart_items, 0 < r.quantity) →
      ∀ r ∈ (decrease_cart_item db u item_id).1.cart_items, 0 < r.quantity) := by
  refine ⟨?_, ?_, ?_, ?_, ?_, ?_⟩
  · intro db id q r0 hf hq
    exact update_count_eq_pos db id q r0 hf hq
  · intro db id q r0 hf hq
    exact update_count_eq_le db id q r0 hf hq
  · intro db id q hf
    exact update_count_eq_none db id q hf
  · intro db u item_id item cartRow hf hc htg hvalid
    have hmem : item ∈ db.cart_items := List.mem_of_find?_eq_some hf
    constructor
    · intro hq
      rw [decrease_eq_deleted db u item_id item cartRow hf hc htg (by omega)]
      rw [delete_cart_item_fst]
      have hnoop : refresh_cart_db
          ({ db with cart_items := (db.cart_items.filter
            (fun r => r.id != item.id)) }) u =
          { db with cart_items := (db.cart_items.filter
            (fun r => r.id != item.id)) } := by
        apply refresh_cart_db_noop
        intro r hr
        have hr2 : r ∈ db.cart_items := (List.mem_filter.mp hr).1
        have := rowInvalid_products_congr
          ({ db with cart_items := (db.cart_items.filter
            (fun r2 => r2.id != item.id)) }) db r rfl
        rw [this]
        exact hvalid r hr2
      rw [hnoop]
    · intro hq
      rw [decrease_eq_updated db u item_id item cartRow hf hc htg (by omega)]
      have hnoop : refresh_cart_db
          ({ db with cart_items := (db.cart_items.map
            (fun x => if x.id == item.id
              then { item with quantity := item.quantity - 1 } else x)) }) u =
          { db with cart_items := (db.cart_items.map
            (fun x => if x.id == item.id
              then { item with quantity := item.quantity - 1 } else x)) } := by
        apply refresh_cart_db_noop
        intro r hr
        have hr2 : r ∈ db.cart_items.map
            (fun x => if x.id == item.id
              then { item with quantity := item.quantity - 1 } else x) := hr
        rw [List.mem_map] at hr2
        obtain ⟨y, hy, hxy⟩ := hr2
        have hprodeq := rowInvalid_products_congr
          ({ db with cart_items := (db.cart_items.map
            (fun x => if x.id == item.id
              then { item with quantity := item.quantity - 1 } else x)) })
          db r rfl
        rw [hprodeq]
        by_cases hid : (y.id == item.id) = true
        · rw [← hxy, if_pos hid]
          have := rowInvalid_pid db
            { item with quantity := item.quantity - 1 } item rfl
          rw [this]
          exact hvalid item hmem
        · have hid2 : (y.id == item.id) = false := by simpa using hid
          rw [← hxy, if_neg (by simp [hid2])]
          exact hvalid y hy
      rw [hnoop]
  · intro db id q hpos
    exact update_count_preserves_pos db id q hpos
  · intro db u item_id hpos
    exact decrease_preserves_pos db u item_id hpos

/-- Witness for C5 (amended): decrementing a quantity-1 item deletes its
row; setting a quantity of 3 on a quantity-2 item updates the row and
returns it. -/
theorem c5_quantity_invariant_witness :
    decrease_cart_item
        ⟨[⟨1, 1, "Tea", none, 10000, none, true⟩], [⟨1, 42⟩],
          [⟨1, 1, 1, 1⟩], [], [], 2, 2, 1, 1⟩ 42 1 =
      ({ (⟨[⟨1, 1, "Tea", none, 10000, none, true⟩], [⟨1, 42⟩],
          [⟨1, 1, 1, 1⟩], [], [], 2, 2, 1, 1⟩ : DB) with
          cart_items := (([⟨1, 1, 1, 1⟩] : List CartItemRow).filter
            (fun x => x.id != 1)) }, .deleted) ∧
    update_cart_item_count
        ⟨[⟨1, 1, "Tea", none, 10000, none, true⟩], [⟨1, 42⟩],
          [⟨1, 1, 1, 2⟩], [], [], 2, 2, 1, 1⟩ 1 3 =
      ({ (⟨[⟨1, 1, "Tea", none, 10000, none, true⟩], [⟨1, 42⟩],
          [⟨1, 1, 1, 2⟩], [], [], 2, 2, 1, 1⟩ : DB) with
          cart_items := (([⟨1, 1, 1, 2⟩] : List CartItemRow).map
            (fun x => if x.id == 1
              then { (⟨1, 1, 1, 2⟩ : CartItemRow) with quantity := 3 }
              else x)) },
        .updated { (⟨1, 1, 1, 2⟩ : CartItemRow) with quantity := 3 }) := by
  constructor
  · have h := (c5_quantity_invariant.2.2.2.1)
      ⟨[⟨1, 1, "Tea", none, 10000, none, true⟩], [⟨1, 42⟩],
        [⟨1, 1, 1, 1⟩], [], [], 2, 2, 1, 1⟩ 42 1 ⟨1, 1, 1, 1⟩ ⟨1, 42⟩
      (by decide) (by decide) (by decide) (by decide)
    exact h.1 (by decide)
  · exact (c5_quantity_invariant.1)
      ⟨[⟨1, 1, "Tea", none, 10000, none, true⟩], [⟨1, 42⟩],
        [⟨1, 1, 1, 2⟩], [], [], 2, 2, 1, 1⟩ 1 3 ⟨1, 1, 1, 2⟩
      (by decide) (by decide)

lemma find?_append_none {α : Type} (p : α → Bool) (l1 l2 : List α)
    (h : l1.find? p = none) : (l1 ++ l2).find? p = l2.find? p := by
  induction l1 with
  | nil => rfl
  | cons hd tl ih =>
      cases hp : p hd with
      | true =>
          rw [List.find?_cons_of_pos _ hp] at h
          simp at h
      | false =>
          rw [List.find?_cons_of_neg _ (by simp [hp])] at h
          rw [List.cons_append, List.find?_cons_of_neg _ (by simp [hp])]
          exact ih h

lemma add_product_step_insert (db : DB) (tg pid : Nat) (p : Product)
    (cart : LoadedCart)
    (hprod : getProduct db pid = some p) (hact : p.is_active = true)
    (hcart : get_cart_by_user db tg = some cart)
    (hnone : db.cart_items.find?
      (fun r => r.cart_id == cart.id && r.product_id == pid) = none) :
    add_product_to_cart db tg pid =
      ({ db with
          cart_items := (db.cart_items ++
            [⟨db.next_cart_item_id, cart.id, pid, 1⟩]),
          next_cart_item_id := db.next_cart_item_id + 1 },
        .added) := by
  have hany : db.cart_items.any
      (fun r => r.cart_id == cart.id && r.product_id == pid) = false := by
    rw [List.any_eq_false]
    intro r hr
    have := List.find?_eq_none.mp hnone r hr
    simpa using this
  unfold add_product_to_cart
  simp only [hprod, hact, Bool.not_true, Bool.false_eq_true, if_false, hcart]
  rw [hnone]
  unfold add_cart_item
  rw [if_neg (by omega), if_neg (by simp [hany])]

lemma add_product_step_increment (db : DB) (tg pid : Nat) (p : Product)
    (cart : LoadedCart) (ex : CartItemRow)
    (hprod : getProduct db pid = some p) (hact : p.is_active = true)
    (hcart : get_cart_by_user db tg = some cart)
    (hfound : db.cart_items.find?
      (fun r => r.cart_id == cart.id && r.product_id == pid) = some ex) :
    add_product_to_cart db tg pid =
      ((update_cart_item_count db ex.id (ex.quantity + 1)).1, .added) := by
  unfold add_product_to_cart
  simp only [hprod, hact, Bool.not_true, Bool.false_eq_true, if_false, hcart]
  rw [hfound]

lemma add_product_unavailable_missing (db : DB) (tg pid : Nat)
    (hprod : getProduct db pid = none) :
    add_product_to_cart db tg pid = (db, .unavailable) := by
  unfold add_product_to_cart
  rw [hprod]

lemma add_product_unavailable_inactive (db : DB) (tg pid : Nat) (p : Product)
    (hprod : getProduct db pid = some p) (hact : p.is_active = false) :
    add_product_to_cart db tg pid = (db, .unavailable) := by
  unfold add_product_to_cart
  simp [hprod, hact]

lemma addNTimes_from_existing (db0 : DB) (tg pid : Nat) (p : Product)
    (cart : LoadedCart)
    (hprod : getProduct db0 pid = some p) (hact : p.is_active = true)
    (hcart : get_cart_by_user db0 tg = some cart)
    (hnopair : db0.cart_items.find?
      (fun r => r.cart_id == cart.id && r.product_id == pid) = none)
    (hids : ∀ r ∈ db0.cart_items, r.id < db0.next_cart_item_id) :
    ∀ (n : Nat) (q : Int), 0 < q →
      addNTimes
        { db0 with
            cart_items := (db0.cart_items ++
              [⟨db0.next_cart_item_id, cart.id, pid, q⟩]),
            next_cart_item_id := db0.next_cart_item_id + 1 } tg pid n =
      { db0 with
          cart_items := (db0.cart_items ++
            [⟨db0.next_cart_item_id, cart.id, pid, q + n⟩]),
          next_cart_item_id := db0.next_cart_item_id + 1 } := by
  obtain ⟨row, hfind, hcartEq, htg⟩ := get_cart_by_user_elim db0 tg cart hcart
  have hcid : cart.id = row.id := by rw [hcartEq]; rfl
  intro n
  induction n with
  | zero =>
      intro q _
      show _ = _
      norm_num [addNTimes]
  | succ k ih =>
      intro q hq
      have hstep : add_product_to_cart
          { db0 with
              cart_items := (db0.cart_items ++
                [⟨db0.next_cart_item_id, cart.id, pid, q⟩]),
              next_cart_item_id := db0.next_cart_item_id + 1 } tg pid =
          ({ db0 with
              cart_items := (db0.cart_items ++
                [⟨db0.next_cart_item_id, cart.id, pid, q + 1⟩]),
              next_cart_item_id := db0.next_cart_item_id + 1 },
            .added) := by
        have hprodS : getProduct
            { db0 with
                cart_items := (db0.cart_items ++
                  [⟨db0.next_cart_item_id, cart.id, pid, q⟩]),
                next_cart_item_id := db0.next_cart_item_id + 1 } pid =
            some p := hprod
        have hcartS : get_cart_by_user
            { db0 with
                cart_items := (db0.cart_items ++
                  [⟨db0.next_cart_item_id, cart.id, pid, q⟩]),
                next_cart_item_id := db0.next_cart_item_id + 1 } tg =
            some (loadCart
              { db0 with
                  cart_items := (db0.cart_items ++
                    [⟨db0.next_cart_item_id, cart.id, pid, q⟩]),
                  next_cart_item_id := db0.next_cart_item_id + 1 } row) := by
          unfold get_cart_by_user
          show (db0.carts.find? (fun c => c.tg_id == tg)).map _ = _
          rw [hfind]
          rfl
        have hfound : ({ db0 with
            cart_items := (db0.cart_items ++
              [⟨db0.next_cart_item_id, cart.id, pid, q⟩]),
            next_cart_item_id := db0.next_cart_item_id + 1 } : DB).cart_items.find?
            (fun r => r.cart_id == (loadCart
              { db0 with
                  cart_items := (db0.cart_items ++
                    [⟨db0.next_cart_item_id, cart.id, pid, q⟩]),
                  next_cart_item_id := db0.next_cart_item_id + 1 } row).id &&
              r.product_id == pid) =
            some ⟨db0.next_cart_item_id, cart.id, pid, q⟩ := by
          show (db0.cart_items ++
            [(⟨db0.next_cart_item_id, cart.id, pid, q⟩ : CartItemRow)]).find?
              (fun r : CartItemRow =>
                r.cart_id == row.id && r.product_id == pid) =
            some (⟨db0.next_cart_item_id, cart.id, pid, q⟩ : CartItemRow)
          rw [find?_append_none _ _ _ (by rw [← hcid]; exact hnopair)]
          rw [List.find?_cons_of_pos _ (by simp [hcid])]
        have hupd := add_product_step_increment
          { db0 with
              cart_items := (db0.cart_items ++
                [⟨db0.next_cart_item_id, cart.id, pid, q⟩]),
              next_cart_item_id := db0.next_cart_item_id + 1 } tg pid p
          (loadCart
            { db0 with
                cart_items := (db0.cart_items ++
                  [⟨db0.next_cart_item_id, cart.id, pid, q⟩]),
                next_cart_item_id := db0.next_cart_item_id + 1 } row)
          ⟨db0.next_cart_item_id, cart.id, pid, q⟩
          hprodS hact hcartS hfound
        rw [hupd]
        have hfid : (db0.cart_items ++
            [(⟨db0.next_cart_item_id, cart.id, pid, q⟩ : CartItemRow)]).find?
              (fun x => x.id == db0.next_cart_item_id) =
            some ⟨db0.next_cart_item_id, cart.id, pid, q⟩ := by
          rw [find?_append_none _ _ _ ?side]
          · rw [List.find?_cons_of_pos _ (by simp)]
          case side =>
            rw [List.find?_eq_none]
            intro x hx
            have := hids x hx
            simp
            omega
        have hupd2 := update_count_eq_pos
          { db0 with
              cart_items := (db0.cart_items ++
                [⟨db0.next_cart_item_id, cart.id, pid, q⟩]),
              next_cart_item_id := db0.next_cart_item_id + 1 }
          db0.next_cart_item_id (q + 1)
          ⟨db0.next_cart_item_id, cart.id, pid, q⟩ hfid (by omega)
        rw [hupd2]
        have hmap : ((db0.cart_items ++
            [(⟨db0.next_cart_item_id, cart.id, pid, q⟩ : CartItemRow)]).map
              (fun x => if x.id == db0.next_cart_item_id
                then { (⟨db0.next_cart_item_id, cart.id, pid, q⟩ :
                    CartItemRow) with quantity := q + 1 }
                else x)) =
            db0.cart_items ++
              [⟨db0.next_cart_item_id, cart.id, pid, q + 1⟩] := by
          rw [List.map_append]
          congr 1
          · have : ∀ x ∈ db0.cart_items,
                (if x.id == db0.next_cart_item_id
                  then { (⟨db0.next_cart_item_id, cart.id, pid, q⟩ :
                      CartItemRow) with quantity := q + 1 }
                  else x) = id x := by
              intro x hx
              have := hids x hx
              rw [if_neg (by simp; omega)]
              rfl
            rw [List.map_congr_left this, List.map_id]
          · simp
        rw [hmap]
      show addNTimes (add_product_to_cart
          { db0 with
              cart_items := (db0.cart_items ++
                [⟨db0.next_cart_item_id, cart.id, pid, q⟩]),
              next_cart_item_id := db0.next_cart_item_id + 1 } tg pid).1
          tg pid k = _
      rw [hstep]
      have hfin := ih (q + 1) (by omega)
      rw [hfin]
      have : q + 1 + (k : Int) = q + ((k : Int) + 1) := by ring
      rw [this]
      norm_num

lemma addNTimes_state (db : DB) (tg pid : Nat) (p : Product)
    (cart : LoadedCart)
    (hprod : getProduct db pid = some p) (hact : p.is_active = true)
    (hcart : get_cart_by_user db tg = some cart)
    (hnopair : db.cart_items.find?
      (fun r => r.cart_id == cart.id && r.product_id == pid) = none)
    (hids : ∀ r ∈ db.cart_items, r.id < db.next_cart_item_id) :
    ∀ n : Nat, addNTimes db tg pid (n + 1) =
      { db with
          cart_items := (db.cart_items ++
            [⟨db.next_cart_item_id, cart.id, pid, (n : Int) + 1⟩]),
          next_cart_item_id := db.next_cart_item_id + 1 } := by
  intro n
  show addNTimes (add_product_to_cart db tg pid).1 tg pid n = _
  rw [add_product_step_insert db tg pid p cart hprod hact hcart hnopair]
  have h := addNTimes_from_existing db tg pid p cart hprod hact hcart hnopair
    hids n 1 (by omega)
  rw [h]
  have : (1 : Int) + n = (n : Int) + 1 := by ring
  rw [this]

lemma addNTimes_comp (tg pid : Nat) : ∀ (a b : Nat) (db : DB),
    addNTimes (addNTimes db tg pid a) tg pid b =
      addNTimes db tg pid (a + b) := by
  intro a
  induction a with
  | zero =>
      intro b db
      rw [Nat.zero_add]
      rfl
  | succ k ih =>
      intro b db
      have h1 : k + 1 + b = (k + b) + 1 := by omega
      rw [h1]
      show addNTimes (addNTimes (add_product_to_cart db tg pid).1 tg pid k)
          tg pid b =
        addNTimes (add_product_to_cart db tg pid).1 tg pid (k + b)
      exact ih b _

/-- C6: starting from a cart with no row for the product, pressing
add-to-cart with quantities q1 and then q2 (each press adds quantity 1, so
a quantity q is q consecutive presses) leaves exactly one CartItem row for
the (cart, product) pair, with quantity q1 + q2 — not two rows; and
pressing add for a missing or inactive product is a no-op on the database
that signals the product is unavailable. -/
theorem c6_add_merges_rows :
    (∀ (db : DB) (tg pid : Nat) (p : Product) (cart : LoadedCart)
        (q1 q2 : Nat),
      getProduct db pid = some p → p.is_active = true →
      get_cart_by_user db tg = some cart →
      db.cart_items.find?
        (fun r => r.cart_id == cart.id && r.product_id == pid) = none →
      (∀ r ∈ db.cart_items, r.id < db.next_cart_item_id) →
      1 ≤ q1 → 1 ≤ q2 →
      (addNTimes (addNTimes db tg pid q1) tg pid q2).cart_items.filter
          (fun r => r.cart_id == cart.id && r.product_id == pid) =
        [⟨db.next_cart_item_id, cart.id, pid, (q1 : Int) + q2⟩]) ∧
    (∀ (db : DB) (tg pid : Nat), getProduct db pid = none →
      add_product_to_cart db tg pid = (db, .unavailable)) ∧
    (∀ (db : DB) (tg pid : Nat) (p : Product),
      getProduct db pid = some p → p.is_active = false →
      add_product_to_cart db tg pid = (db, .unavailable)) := by
  refine ⟨?_, ?_, ?_⟩
  · intro db tg pid p cart q1 q2 hprod hact hcart hnopair hids hq1 hq2
    rw [addNTimes_comp]
    obtain ⟨j, hj⟩ : ∃ j, q1 + q2 = j + 1 := ⟨q1 + q2 - 1, by omega⟩
    rw [hj, addNTimes_state db tg pid p cart hprod hact hcart hnopair hids j]
    show ((db.cart_items ++
        [(⟨db.next_cart_item_id, cart.id, pid, (j : Int) + 1⟩ :
          CartItemRow)]).filter
        (fun r => r.cart_id == cart.id && r.product_id == pid)) = _
    rw [List.filter_append]
    have hnil : db.cart_items.filter
        (fun r => r.cart_id == cart.id && r.product_id == pid) = [] := by
      apply List.filter_eq_nil_iff.mpr
      intro r hr
      have := List.find?_eq_none.mp hnopair r hr
      simpa using this
    rw [hnil]
    have hpass : (([(⟨db.next_cart_item_id, cart.id, pid, (j : Int) + 1⟩ :
        CartItemRow)]).filter
        (fun r => r.cart_id == cart.id && r.product_id == pid)) =
        [⟨db.next_cart_item_id, cart.id, pid, (j : Int) + 1⟩] := by
      simp
    rw [hpass]
    have hqty : (j : Int) + 1 = (q1 : Int) + q2 := by
      have : ((q1 + q2 : Nat) : Int) = ((j + 1 : Nat) : Int) := by rw [hj]
      push_cast at this
      omega
    rw [hqty]
    rfl
  · intro db tg pid hprod
    exact add_product_unavailable_missing db tg pid hprod
  · intro db tg pid p hprod hact
    exact add_product_unavailable_inactive db tg pid p hprod hact

/-- Witness for C6: an empty cart for user 42 and the active product 1;
two presses then three presses leave one row with quantity 5; adding the
missing product 99 or the inactive product 2 is a signalled no-op. -/
theorem c6_add_merges_rows_witness :
    (addNTimes (addNTimes
        ⟨[⟨1, 1, "Tea", none, 10000, none, true⟩,
          ⟨2, 1, "Off", none, 5000, none, false⟩],
          [⟨1, 42⟩], [], [], [], 2, 1, 1, 1⟩ 42 1 2) 42 1 3).cart_items.filter
        (fun r => r.cart_id == 1 && r.product_id == 1) =
      [⟨1, 1, 1, (2 : Int) + 3⟩] ∧
    add_product_to_cart
        ⟨[⟨1, 1, "Tea", none, 10000, none, true⟩,
          ⟨2, 1, "Off", none, 5000, none, false⟩],
          [⟨1, 42⟩], [], [], [], 2, 1, 1, 1⟩ 42 99 =
      (⟨[⟨1, 1, "Tea", none, 10000, none, true⟩,
          ⟨2, 1, "Off", none, 5000, none, false⟩],
          [⟨1, 42⟩], [], [], [], 2, 1, 1, 1⟩, .unavailable) ∧
    add_product_to_cart
        ⟨[⟨1, 1, "Tea", none, 10000, none, true⟩,
          ⟨2, 1, "Off", none, 5000, none, false⟩],
          [⟨1, 42⟩], [], [], [], 2, 1, 1, 1⟩ 42 2 =
      (⟨[⟨1, 1, "Tea", none, 10000, none, true⟩,
          ⟨2, 1, "Off", none, 5000, none, false⟩],
          [⟨1, 42⟩], [], [], [], 2, 1, 1, 1⟩, .unavailable) := by
  refine ⟨?_, ?_, ?_⟩
  · exact c6_add_merges_rows.1
      ⟨[⟨1, 1, "Tea", none, 10000, none, true⟩,
        ⟨2, 1, "Off", none, 5000, none, false⟩],
        [⟨1, 42⟩], [], [], [], 2, 1, 1, 1⟩ 42 1
      ⟨1, 1, "Tea", none, 10000, none, true⟩ ⟨1, 42, []⟩ 2 3
      (by decide) (by decide) (by decide) (by decide)
      (by intro r hr; simp at hr) (by decide) (by decide)
  · exact c6_add_merges_rows.2.1
      ⟨[⟨1, 1, "Tea", none, 10000, none, true⟩,
        ⟨2, 1, "Off", none, 5000, none, false⟩],
        [⟨1, 42⟩], [], [], [], 2, 1, 1, 1⟩ 42 99 (by decide)
  · exact c6_add_merges_rows.2.2
      ⟨[⟨1, 1, "Tea", none, 10000, none, true⟩,
        ⟨2, 1, "Off", none, 5000, none, false⟩],
        [⟨1, 42⟩], [], [], [], 2, 1, 1, 1⟩ 42 2
      ⟨2, 1, "Off", none, 5000, none, false⟩ (by decide) (by decide)

lemma get_cart_elim (db : DB) (cid : Nat) (cart : LoadedCart)
    (h : get_cart db cid = some cart) :
    ∃ row, db.carts.find? (fun c => c.id == cid) = some row ∧
      cart = loadCart db row ∧ row.id = cid := by
  unfold get_cart at h
  cases hf : db.carts.find? (fun c => c.id == cid) with
  | none => rw [hf] at h; simp at h
  | some row =>
      rw [hf] at h
      have h2 : some (loadCart db row) = some cart := h
      have h3 := List.find?_some hf
      have h4 : row.id = cid := by simpa using h3
      exact ⟨row, rfl, (Option.some_inj.mp h2).symm, h4⟩

lemma confirm_on_empty_cart (db : DB) (data : SessionData) (u : Nat)
    (num : String) (cid a b : Nat)
    (hcid : data.cart_id = some cid)
    (hget : get_cart db cid = some ⟨a, b, []⟩) :
    confirm_order db data u num = (db, .emptyCart) := by
  unfold confirm_order confirmReadPhase
  rw [hcid]
  simp only [hget]
  rw [sanitize_cart_noop db ⟨a, b, []⟩ rfl]
  rfl

/-- Counterexample for C7: a concurrent interleaving of two confirmations
of the same one-item cart creates two Orders.  Submission B runs its read
phase (fetch + sanitize, its only writes) before submission A commits
anything, so B observes the non-empty cart; A then runs to completion and
creates order 1; B's persistence phase then runs from its stale snapshot —
every step of it is an individually committed transaction that succeeds —
and creates order 2.  The claim that a concurrent second confirmation
never creates a second Order is therefore false of this code, which has no
transaction re-checking the cart before the insert. -/
theorem c7_counterexample :
    confirmReadPhase
        ⟨[⟨1, 1, "Tea", none, 10000, none, true⟩], [⟨1, 42⟩],
          [⟨1, 1, 1, 2⟩], [], [], 2, 2, 1, 1⟩
        ⟨some 1, some "Ann", some "+79991234567", some "Main St 1",
          some "Курьер"⟩ =
      (⟨[⟨1, 1, "Tea", none, 10000, none, true⟩], [⟨1, 42⟩],
          [⟨1, 1, 1, 2⟩], [], [], 2, 2, 1, 1⟩,
        .inr (⟨1, 42, [⟨1, 1, 1, 2, some ⟨1, 1, "Tea", none, 10000, none, true⟩⟩]⟩,
          (collect_cart_lines
            ⟨1, 42, [⟨1, 1, 1, 2, some ⟨1, 1, "Tea", none, 10000, none, true⟩⟩]⟩).1,
          (collect_cart_lines
            ⟨1, 42, [⟨1, 1, 1, 2, some ⟨1, 1, "Tea", none, 10000, none, true⟩⟩]⟩).2)) ∧
    (confirm_order
        ⟨[⟨1, 1, "Tea", none, 10000, none, true⟩], [⟨1, 42⟩],
          [⟨1, 1, 1, 2⟩], [], [], 2, 2, 1, 1⟩
        ⟨some 1, some "Ann", some "+79991234567", some "Main St 1",
          some "Курьер"⟩ 42 "AAAA1111").2 =
      .success ⟨1, "AAAA1111", some 42, 20000, some "Курьер", .new⟩ ∧
    ((confirmPersistPhase
        (confirm_order
          ⟨[⟨1, 1, "Tea", none, 10000, none, true⟩], [⟨1, 42⟩],
            [⟨1, 1, 1, 2⟩], [], [], 2, 2, 1, 1⟩
          ⟨some 1, some "Ann", some "+79991234567", some "Main St 1",
            some "Курьер"⟩ 42 "AAAA1111").1
        ⟨1, 42, [⟨1, 1, 1, 2, some ⟨1, 1, "Tea", none, 10000, none, true⟩⟩]⟩
        ⟨"BBBB2222", some 42, "Ann", "+79991234567", "Main St 1", 20000,
          some "Курьер", .new⟩).1).orders.length = 2 := by
  refine ⟨by decide, by decide, by decide⟩

/-- C7 (amended): a second confirmation submitted after a successful first
confirmation of the same cart re-fetches and re-sanitizes the cart,
observes it empty — the first confirmation cleared it — and aborts without
any persistence write; but this protection is only sequential: a
concurrent interleaving whose second read precedes the first cart-clearing
commit can create two Orders, since no transaction re-checks the cart
before the insert. -/
theorem c7_second_confirmation_aborts (db : DB) (data : SessionData)
    (u : Nat) (n1 n2 : String) (cid : Nat) (cart : LoadedCart)
    (nm ph ad : String)
    (hcid : data.cart_id = some cid)
    (hcart : get_cart db cid = some cart)
    (hvalid : cart.items.all (fun i => !itemInvalid i) = true)
    (hne : cart.items ≠ [])
    (hnm : data.name = some nm) (hph : data.phone_number = some ph)
    (had : data.address = some ad) :
    confirm_order (confirm_order db data u n1).1 data u n2 =
      ((confirm_order db data u n1).1, .emptyCart) := by
  obtain ⟨rowc, hfindc, hcartEq, hrid⟩ := get_cart_elim db cid cart hcart
  have hrun := confirm_order_success db data u n1 cid cart nm ph ad
    hcid hcart hvalid hne hnm hph had
  have hspec := confirmPersistPhase_spec db cart
    ⟨n1, some u, nm, ph, ad, (collect_cart_lines cart).2,
      data.delivery_method, .new⟩ hvalid
  have hdb2 : (confirm_order db data u n1).1 =
      (confirmPersistPhase db cart
        ⟨n1, some u, nm, ph, ad, (collect_cart_lines cart).2,
          data.delivery_method, .new⟩).1 := by
    rw [hrun]
  have hcartid : cart.id = rowc.id := by rw [hcartEq]; rfl
  have hitems2 : (confirm_order db data u n1).1.cart_items.filter
      (fun r => r.cart_id == rowc.id) = [] := by
    rw [hdb2, hspec.2.2.2.2.2]
    rw [List.filter_filter]
    apply List.filter_eq_nil_iff.mpr
    intro r _
    rw [← hcartid]
    by_cases h : r.cart_id = cart.id <;> simp [h, bne]
  have hget2 : get_cart (confirm_order db data u n1).1 cid =
      some ⟨rowc.id, rowc.tg_id, []⟩ := by
    unfold get_cart
    have hcarts2 : (confirm_order db data u n1).1.carts = db.carts := by
      rw [hdb2]
      exact hspec.2.2.1
    rw [hcarts2, hfindc]
    show some (loadCart (confirm_order db data u n1).1 rowc) = _
    unfold loadCart
    rw [hitems2]
    rfl
  exact confirm_on_empty_cart (confirm_order db data u n1).1 data u n2
    cid rowc.id rowc.tg_id hcid hget2

/-- Witness for C7 (amended): after the successful confirmation of the
one-item cart of user 42, re-submitting the confirmation aborts with the
empty-cart outcome and changes nothing. -/
theorem c7_second_confirmation_aborts_witness :
    confirm_order
        (confirm_order
          ⟨[⟨1, 1, "Tea", none, 10000, none, true⟩], [⟨1, 42⟩],
            [⟨1, 1, 1, 2⟩], [], [], 2, 2, 1, 1⟩
          ⟨some 1, some "Ann", some "+79991234567", some "Main St 1",
            some "Курьер"⟩ 42 "AAAA1111").1
        ⟨some 1, some "Ann", some "+79991234567", some "Main St 1",
          some "Курьер"⟩ 42 "BBBB2222" =
      ((confirm_order
          ⟨[⟨1, 1, "Tea", none, 10000, none, true⟩], [⟨1, 42⟩],
            [⟨1, 1, 1, 2⟩], [], [], 2, 2, 1, 1⟩
          ⟨some 1, some "Ann", some "+79991234567", some "Main St 1",
            some "Курьер"⟩ 42 "AAAA1111").1, .emptyCart) := by
  exact c7_second_confirmation_aborts
    ⟨[⟨1, 1, "Tea", none, 10000, none, true⟩], [⟨1, 42⟩],
      [⟨1, 1, 1, 2⟩], [], [], 2, 2, 1, 1⟩
    ⟨some 1, some "Ann", some "+79991234567", some "Main St 1",
      some "Курьер"⟩ 42 "AAAA1111" "BBBB2222" 1
    ⟨1, 42, [⟨1, 1, 1, 2, some ⟨1, 1, "Tea", none, 10000, none, true⟩⟩]⟩
    "Ann" "+79991234567" "Main St 1"
    rfl (by decide) (by decide) (by decide) rfl rfl rfl

lemma confirmReadPhase_fields (db : DB) (data : SessionData) :
    (confirmReadPhase db data).1.orders = db.orders ∧
    (confirmReadPhase db data).1.order_items = db.order_items := by
  unfold confirmReadPhase
  cases hcid : data.cart_id with
  | none => exact ⟨rfl, rfl⟩
  | some cid =>
      cases hget : get_cart db cid with
      | none => simp [hget]
      | some c =>
          simp only [hget]
          have hf := sanitizeDeletes_fields c.items db
          have h1 : (sanitize_cart db c).1.orders = db.orders := by
            rw [sanitize_cart_fst]
            exact hf.2.2.1
          have h2 : (sanitize_cart db c).1.order_items = db.order_items := by
            rw [sanitize_cart_fst]
            exact hf.2.2.2.1
          cases hs : (sanitize_cart db c).2 with
          | none =>
              simp only [hs]
              exact ⟨h1, h2⟩
          | some cart =>
              simp only [hs]
              by_cases he : cart.items.isEmpty
              · simp only [he, if_true]
                exact ⟨h1, h2⟩
              · have he2 : cart.items.isEmpty = false := by simpa using he
                simp only [he2, Bool.false_eq_true, if_false]
                by_cases hl : (collect_cart_lines cart).1.isEmpty
                · simp only [hl, if_true]
                  exact ⟨h1, h2⟩
                · have hl2 : (collect_cart_lines cart).1.isEmpty = false := by
                    simpa using hl
                  simp only [hl2, Bool.false_eq_true, if_false]
                  exact ⟨h1, h2⟩

lemma confirmReadPhase_inl_not_success (db : DB) (data : SessionData)
    (o : OrderRow) :
    (confirmReadPhase db data).2 ≠ .inl (.success o) := by
  unfold confirmReadPhase
  cases hcid : data.cart_id with
  | none => simp
  | some cid =>
      cases hget : get_cart db cid with
      | none => simp [hget]
      | some c =>
          simp only [hget]
          cases hs : (sanitize_cart db c).2 with
          | none => simp [hs]
          | some cart =>
              by_cases he : cart.items.isEmpty
              · simp [hs, he]
              · have he2 : cart.items.isEmpty = false := by simpa using he
                by_cases hl : (collect_cart_lines cart).1.isEmpty
                · simp [hs, he2, hl]
                · have hl2 : (collect_cart_lines cart).1.isEmpty = false := by
                    simpa using hl
                  simp [hs, he2, hl2]

lemma confirm_order_legacy_eq (db : DB) (data : SessionData) (u : Nat)
    (num : String) :
    confirm_order_legacy db data u num =
      ((confirmReadPhase db data).1,
        match (confirmReadPhase db data).2 with
        | .inl out => out
        | .inr _ => .validationError) := by
  unfold confirm_order_legacy
  cases hr : (confirmReadPhase db data).2 with
  | inl out => simp only [hr]
  | inr val =>
      obtain ⟨cart, lines, total⟩ := val
      cases hnm : data.name <;> cases hph : data.phone_number <;>
        simp only [hr, hnm, hph, validateCreateOrder]

/-- Counterexample for C9: with a cart holding one valid item and one
item whose product is inactive, the installed `confirm_order` of
`user_callbacks.py` does perform a persistence write before its
`CreateOrder` validation failure — the sanitation pass deletes the
inactive-product row and commits — so the handler does not leave the cart
unchanged, although it still persists no Order. -/
theorem c9_counterexample :
    (confirm_order_legacy
        ⟨[⟨1, 1, "Tea", none, 10000, none, true⟩,
          ⟨2, 1, "Off", none, 5000, none, false⟩],
          [⟨1, 42⟩], [⟨1, 1, 1, 1⟩, ⟨2, 1, 2, 1⟩], [], [], 2, 3, 1, 1⟩
        ⟨some 1, some "Ann", some "+79991234567", some "Main St 1",
          some "Курьер"⟩ 42 "AAAA1111").2 = .validationError ∧
    (confirm_order_legacy
        ⟨[⟨1, 1, "Tea", none, 10000, none, true⟩,
          ⟨2, 1, "Off", none, 5000, none, false⟩],
          [⟨1, 42⟩], [⟨1, 1, 1, 1⟩, ⟨2, 1, 2, 1⟩], [], [], 2, 3, 1, 1⟩
        ⟨some 1, some "Ann", some "+79991234567", some "Main St 1",
          some "Курьер"⟩ 42 "AAAA1111").1.orders = [] ∧
    (confirm_order_legacy
        ⟨[⟨1, 1, "Tea", none, 10000, none, true⟩,
          ⟨2, 1, "Off", none, 5000, none, false⟩],
          [⟨1, 42⟩], [⟨1, 1, 1, 1⟩, ⟨2, 1, 2, 1⟩], [], [], 2, 3, 1, 1⟩
        ⟨some 1, some "Ann", some "+79991234567", some "Main St 1",
          some "Курьер"⟩ 42 "AAAA1111").1.cart_items = [⟨1, 1, 1, 1⟩] ∧
    (confirm_order_legacy
        ⟨[⟨1, 1, "Tea", none, 10000, none, true⟩,
          ⟨2, 1, "Off", none, 5000, none, false⟩],
          [⟨1, 42⟩], [⟨1, 1, 1, 1⟩, ⟨2, 1, 2, 1⟩], [], [], 2, 3, 1, 1⟩
        ⟨some 1, some "Ann", some "+79991234567", some "Main St 1",
          some "Курьер"⟩ 42 "AAAA1111").1.cart_items ≠
      [⟨1, 1, 1, 1⟩, ⟨2, 1, 2, 1⟩] := by
  refine ⟨by decide, by decide, by decide, by decide⟩

/-- C9 (amended): the `confirm_order` handler installed by
`setup_routers` (`user_callbacks.py`) passes the keyword `addres`, so the
required `address` field of `CreateOrder` is never supplied and whenever
the handler reaches the payload construction it fails validation; the
handler therefore never persists an Order or OrderItem for any session
data, and the only database writes it can make are the cart-sanitation
deletes of its read phase. -/
theorem c9_legacy_confirm_never_persists (db : DB) (data : SessionData)
    (u : Nat) (num : String) :
    (∀ o : OrderRow, (confirm_order_legacy db data u num).2 ≠ .success o) ∧
    (confirm_order_legacy db data u num).1.orders = db.orders ∧
    (confirm_order_legacy db data u num).1.order_items = db.order_items ∧
    (confirm_order_legacy db data u num).1 = (confirmReadPhase db data).1 := by
  have heq := confirm_order_legacy_eq db data u num
  have hfields := confirmReadPhase_fields db data
  refine ⟨?_, ?_, ?_, ?_⟩
  · intro o hsucc
    rw [heq] at hsucc
    cases hr : (confirmReadPhase db data).2 with
    | inl out =>
        rw [hr] at hsucc
        have hsucc2 : out = ConfirmOutcome.success o := hsucc
        have hno := confirmReadPhase_inl_not_success db data o
        rw [hr, hsucc2] at hno
        exact hno rfl
    | inr val =>
        rw [hr] at hsucc
        have hsucc2 : ConfirmOutcome.validationError =
            ConfirmOutcome.success o := hsucc
        simp at hsucc2
  · rw [heq]
    exact hfields.1
  · rw [heq]
    exact hfields.2
  · rw [heq]

/-- Witness for C9 (amended): on the two-item cart of user 42 the
installed handler persists no Order and no OrderItem. -/
theorem c9_legacy_confirm_never_persists_witness :
    (confirm_order_legacy
        ⟨[⟨1, 1, "Tea", none, 10000, none, true⟩,
          ⟨2, 1, "Off", none, 5000, none, false⟩],
          [⟨1, 42⟩], [⟨1, 1, 1, 1⟩, ⟨2, 1, 2, 1⟩], [], [], 2, 3, 1, 1⟩
        ⟨some 1, some "Ann", some "+79991234567", some "Main St 1",
          some "Курьер"⟩ 42 "CCCC3333").1.orders = [] ∧
    (confirm_order_legacy
        ⟨[⟨1, 1, "Tea", none, 10000, none, true⟩,
          ⟨2, 1, "Off", none, 5000, none, false⟩],
          [⟨1, 42⟩], [⟨1, 1, 1, 1⟩, ⟨2, 1, 2, 1⟩], [], [], 2, 3, 1, 1⟩
        ⟨some 1, some "Ann", some "+79991234567", some "Main St 1",
          some "Курьер"⟩ 42 "CCCC3333").1.order_items = [] := by
  have h := c9_legacy_confirm_never_persists
    ⟨[⟨1, 1, "Tea", none, 10000, none, true⟩,
      ⟨2, 1, "Off", none, 5000, none, false⟩],
      [⟨1, 42⟩], [⟨1, 1, 1, 1⟩, ⟨2, 1, 2, 1⟩], [], [], 2, 3, 1, 1⟩
    ⟨some 1, some "Ann", some "+79991234567", some "Main St 1",
      some "Курьер"⟩ 42 "CCCC3333"
  exact ⟨h.2.1, h.2.2.1⟩

lemma process_order_phone_cases (text : String) (st : Option StateId)
    (data : SessionData) :
    (¬(10 ≤ (digits_only (pyStrip text)).length ∧
        (digits_only (pyStrip text)).length ≤ 15) →
      process_order_phone text st data = ⟨st, data, false⟩) ∧
    ((10 ≤ (digits_only (pyStrip text)).length ∧
        (digits_only (pyStrip text)).length ≤ 15) →
      process_order_phone text st data =
        ⟨some ⟨"RegNewUser", "address"⟩,
          { data with phone_number := some (pyStrip text) }, true⟩) := by
  constructor
  · intro h
    unfold process_order_phone
    have hb : ((digits_only (pyStrip text)).length < 10 ||
        15 < (digits_only (pyStrip text)).length) = true := by
      simp only [Bool.or_eq_true, decide_eq_true_eq]
      omega
    simp only [hb, if_true]
  · intro h
    unfold process_order_phone
    have hb : ((digits_only (pyStrip text)).length < 10 ||
        15 < (digits_only (pyStrip text)).length) = false := by
      simp only [Bool.or_eq_false_iff, decide_eq_false_iff_not]
      omega
    simp only [hb, Bool.false_eq_true, if_false]

/-- C8: `process_order_phone` accepts an input exactly when the number of
digit characters in the stripped input lies in [10, 15]; a rejected input
re-prompts with the FSM state and the session data unchanged.  In
particular "+7 (999) 123-45-67" (11 digits) is accepted and "12345"
(5 digits) is rejected with no state change. -/
theorem c8_phone_validation :
    (∀ (text : String) (st : Option StateId) (data : SessionData),
      ((process_order_phone text st data).accepted = true ↔
        10 ≤ (digits_only (pyStrip text)).length ∧
          (digits_only (pyStrip text)).length ≤ 15) ∧
      ((process_order_phone text st data).accepted = false →
        process_order_phone text st data = ⟨st, data, false⟩)) ∧
    (digits_only (pyStrip "+7 (999) 123-45-67")).length = 11 ∧
    (∀ (st : Option StateId) (data : SessionData),
      (process_order_phone "+7 (999) 123-45-67" st data).accepted = true) ∧
    (digits_only (pyStrip "12345")).length = 5 ∧
    (∀ (st : Option StateId) (data : SessionData),
      process_order_phone "12345" st data = ⟨st, data, false⟩) := by
  refine ⟨?_, by decide, ?_, by decide, ?_⟩
  · intro text st data
    by_cases h : 10 ≤ (digits_only (pyStrip text)).length ∧
        (digits_only (pyStrip text)).length ≤ 15
    · rw [(process_order_phone_cases text st data).2 h]
      exact ⟨⟨fun _ => h, fun _ => rfl⟩, fun habs => absurd habs (by simp)⟩
    · rw [(process_order_phone_cases text st data).1 h]
      exact ⟨⟨fun habs => absurd habs (by simp), fun hb => absurd hb h⟩,
        fun _ => rfl⟩
  · intro st data
    rw [(process_order_phone_cases "+7 (999) 123-45-67" st data).2 (by decide)]
  · intro st data
    exact (process_order_phone_cases "12345" st data).1 (by decide)

/-- Witness for C8: the two example inputs evaluated in the phone state
with an empty session. -/
theorem c8_phone_validation_witness :
    process_order_phone "12345"
        (some ⟨"RegNewUser", "phone_number"⟩)
        ⟨none, none, none, none, none⟩ =
      ⟨some ⟨"RegNewUser", "phone_number"⟩,
        ⟨none, none, none, none, none⟩, false⟩ ∧
    (process_order_phone "+7 (999) 123-45-67"
        (some ⟨"RegNewUser", "phone_number"⟩)
        ⟨none, none, none, none, none⟩).accepted = true := by
  constructor
  · exact (c8_phone_validation.1 "12345"
      (some ⟨"RegNewUser", "phone_number"⟩)
      ⟨none, none, none, none, none⟩).2 (by decide)
  · exact c8_phone_validation.2.2.1
      (some ⟨"RegNewUser", "phone_number"⟩) ⟨none, none, none, none, none⟩

lemma checkout_step_closed :
    ∀ s ∈ checkoutClosedSet, ∀ tr ∈ installedTransitions,
      guardMatches tr.guard s = true → tr.target ∈ checkoutClosedSet := by
  decide

lemma checkout_reach_closed (t : Option StateId)
    (h : FsmReach (some ⟨"NewDelivery", "name"⟩) t) :
    t ∈ checkoutClosedSet := by
  induction h with
  | refl => decide
  | tail hab hbc ih =>
      obtain ⟨tr, htr, hg, ht⟩ := hbc
      rw [ht]
      exact checkout_step_closed _ ih tr htr hg

/-- C10: the states module defines no group named `RegNewUser`; none of
the free-text checkout handlers (`process_order_name`,
`process_order_phone`, `process_order_address`, all guarded on
`RegNewUser` states) fires in any `NewDelivery` state; and from
`NewDelivery.name` — the state `start_checkout` sets — no sequence of
installed handler transitions can ever reach `NewDelivery.phone_number`,
`address`, `delivery_method` or `confirm`: the checkout dialogue as wired
never advances past name collection. -/
theorem c10_checkout_wiring :
    ("RegNewUser" ∉ states_module_groups.map Prod.fst) ∧
    (∀ g ∈ checkoutMessageGuards, ∀ s ∈ newDeliveryStates, g ≠ s) ∧
    (∀ t, FsmReach (some ⟨"NewDelivery", "name"⟩) t →
      t ≠ some ⟨"NewDelivery", "phone_number"⟩ ∧
      t ≠ some ⟨"NewDelivery", "address"⟩ ∧
      t ≠ some ⟨"NewDelivery", "delivery_method"⟩ ∧
      t ≠ some ⟨"NewDelivery", "confirm"⟩) := by
  refine ⟨by decide, by decide, ?_⟩
  intro t h
  have hmem := checkout_reach_closed t h
  fin_cases hmem <;> refine ⟨by decide, by decide, by decide, by decide⟩

/-- Witness for C10: the reachability component applied to the empty
transition sequence from `NewDelivery.name`. -/
theorem c10_checkout_wiring_witness :
    some (⟨"NewDelivery", "name"⟩ : StateId) ≠
      some ⟨"NewDelivery", "phone_number"⟩ ∧
    some (⟨"NewDelivery", "name"⟩ : StateId) ≠
      some ⟨"NewDelivery", "address"⟩ ∧
    some (⟨"NewDelivery", "name"⟩ : StateId) ≠
      some ⟨"NewDelivery", "delivery_method"⟩ ∧
    some (⟨"NewDelivery", "name"⟩ : StateId) ≠
      some ⟨"NewDelivery", "confirm"⟩ :=
  c10_checkout_wiring.2.2 (some ⟨"NewDelivery", "name"⟩)
    Relation.ReflTransGen.refl

end TeleStore
